import Mathlib

/-!
# Verification of the DataViz pattern-analysis core

A shallow embedding, in Lean 4, of the computational core of the
DataViz-MCP-Server repository: the pattern detectors
(`PatternDetector`, `AdvancedPatternDetector`), the fingerprint generator
(`PatternFingerprintGenerator`) and the similarity engine
(`PatternSimilarityEngine`).

Modelling conventions, used throughout:

* JavaScript `number` is modelled as the real numbers `ℝ` (the usual
  idealization of IEEE doubles); integer indices and counts are `ℕ`.
* JavaScript record values (`number | string | boolean`) are modelled by
  the inductive type `JSValue`; the JS value `NaN` gets its own
  constructor (`typeof NaN === 'number'` but `isNaN NaN` holds), and a
  missing property (`undefined`) is modelled as `Option.none`.
* A JS object / `Map` with string keys is modelled as an association
  list `List (String × key)` in insertion order, with the JS
  `Map.set` / property-assignment semantics given by `mapSet` below
  (update in place if the key exists, append otherwise).
* Impure inputs of the code are made explicit parameters: every call to
  `Date.now()` becomes a `ℕ` argument, `Math.random()`-derived values
  become function arguments, and the external hashing / serialization
  routines (`createHash('sha256')`, `createHash('md5')`,
  `JSON.stringify`, `Number.prototype.toFixed`, JS number-to-string
  conversion) are collected in the parameter structure `Ext`.
* Division by zero in `ℝ` yields `0` in Lean.  The repository guards
  every similarity/score division it cares about with an explicit
  `=== 0` check, and the remaining unguarded library corner cases
  (noted with comments where they occur) do not affect the claims
  proved here.
* A library call that throws in JS is modelled with `Option` (`none` =
  the exception).  This matters most for `ss.rSquared`: both call sites
  pass the `{m, b}` regression record where the library expects a
  callable, so the call raises `TypeError` for every sample of 2 or
  more points.  In `PatternDetector.detectTrends` a `try`/`catch` turns
  this into a skip; in `calculateTrendStrength` there is no handler, so
  the exception propagates through `generateTemporalFingerprint` and
  `generateFingerprint` (hence `findSimilarPatterns`), which therefore
  reject for every dataset whose first numeric column has 3 or more
  values.
-/

namespace DataViz

/-- A JavaScript runtime value as it occurs in a record field
(`number | string | boolean`).  `NaN` is a separate constructor: it has
`typeof _ === 'number'` but fails the `!isNaN` test of
`getNumericColumns`. -/
inductive JSValue where
  | num (x : ℝ)
  | nan
  | str (s : String)
  | bool (b : Bool)

/-- JS property read `obj[key]`: the value of the first binding of `key`,
or `none` for JS `undefined`.  (JS objects have unique keys, so "first"
is immaterial on well-formed records.) -/
def getValue (vals : List (String × JSValue)) (key : String) : Option JSValue :=
  (vals.find? (fun p => p.1 == key)).map (·.2)

/-- The test applied by `getNumericColumns` to one record value:
`typeof point.values[key] === 'number' && !isNaN(point.values[key])`. -/
def isNumberNotNaN : Option JSValue → Bool
  | some (JSValue.num _) => true
  | _ => false

/-- `DataPoint` from `src/types/index.ts` (the optional `metadata` bag is
never read by the analysis core and is omitted). -/
structure DataPoint where
  id : String
  timestamp : ℝ
  values : List (String × JSValue)

/-- JS `Object.keys`: the field names of a record in insertion order. -/
def objectKeys (vals : List (String × JSValue)) : List String :=
  vals.map Prod.fst

namespace PatternDetector

/-- `PatternDetector.getNumericColumns` (PatternDetector.ts): the keys of
the FIRST record whose value in EVERY record is a non-`NaN` number. -/
def getNumericColumns (data : List DataPoint) : List String :=
  match data with
  | [] => []
  | firstRow :: _ =>
      (objectKeys firstRow.values).filter fun key =>
        data.all fun point => isNumberNotNaN (getValue point.values key)

end PatternDetector

namespace PatternFingerprintGenerator

/-- `PatternFingerprintGenerator.getNumericColumns`
(PatternFingerprint.ts, lines 626–635); textually identical to
`PatternDetector.getNumericColumns`. -/
def getNumericColumns (data : List DataPoint) : List String :=
  match data with
  | [] => []
  | firstRow :: _ =>
      (objectKeys firstRow.values).filter fun key =>
        data.all fun point => isNumberNotNaN (getValue point.values key)

end PatternFingerprintGenerator

/-- The two copies of `getNumericColumns` agree. -/
theorem getNumericColumns_eq :
    PatternDetector.getNumericColumns = PatternFingerprintGenerator.getNumericColumns := rfl

theorem isNumberNotNaN_iff (v : Option JSValue) :
    isNumberNotNaN v = true ↔ ∃ x : ℝ, v = some (JSValue.num x) := by
  cases v with
  | none => simp [isNumberNotNaN]
  | some w => cases w <;> simp [isNumberNotNaN]

/-- **C10.**  For every non-empty dataset, the set of fields treated as
numeric — by the detectors (`PatternDetector.getNumericColumns`) and by
fingerprint generation (`PatternFingerprintGenerator.getNumericColumns`),
which are one and the same function — is exactly the keys present in the
first record whose value in every record is of number type and not `NaN`.
In particular a field absent from the first record is never analyzed
(membership requires being a key of the first record), and a field whose
value is `NaN` (or missing, or non-numeric) in any record is excluded. -/
theorem numeric_columns_characterization (data : List DataPoint) (k : String) :
    PatternDetector.getNumericColumns = PatternFingerprintGenerator.getNumericColumns ∧
    (k ∈ PatternDetector.getNumericColumns data ↔
      ∃ firstRow rest, data = firstRow :: rest ∧
        k ∈ objectKeys firstRow.values ∧
        ∀ point ∈ data, ∃ x : ℝ, getValue point.values k = some (JSValue.num x)) := by
  refine ⟨rfl, ?_⟩
  cases data with
  | nil => simp [PatternDetector.getNumericColumns]
  | cons firstRow rest =>
      simp only [PatternDetector.getNumericColumns, List.mem_filter, List.all_eq_true]
      constructor
      · rintro ⟨hk, hall⟩
        exact ⟨firstRow, rest, rfl, hk, fun p hp => (isNumberNotNaN_iff _).1 (hall p hp)⟩
      · rintro ⟨f', r', heq, hk, hall⟩
        cases heq
        exact ⟨hk, fun p hp => (isNumberNotNaN_iff _).2 (hall p hp)⟩

end DataViz

/-! ## Numeric helpers and the `simple-statistics` library model

The repository computes with the npm library `simple-statistics` (imported
as `ss`).  The library functions used by the analysis core are modelled
here over `ℝ`.  Where the library throws on degenerate input (empty
sample, sample of length < 2) and the repository wraps the call in
`try`/`catch`, the model returns `Option.none`; where the repository
calls the library unguarded, the call sites only ever pass
non-degenerate input (noted at each site), and the model totalizes the
function with the Lean convention `x / 0 = 0`. -/

open Classical in
/-- Bool view of a classical proposition, for `List.filter` etc. -/
noncomputable def cdecide (p : Prop) : Bool := decide p

theorem cdecide_eq_true_iff (p : Prop) : cdecide p = true ↔ p := by
  simp [cdecide]

noncomputable section

open Classical

namespace ss

/-- `ss.mean`: the arithmetic mean.  (The library throws on an empty
sample; the analysis core can only reach that case through
`calculatePeriodicityScore` with exactly one significant lag, a case no
claim here depends on; the model yields `0 / 0 = 0` there.) -/
def mean (x : List ℝ) : ℝ := x.sum / x.length

/-- `ss.variance`: the population variance (mean squared deviation). -/
def variance (x : List ℝ) : ℝ :=
  ((x.map fun v => (v - mean x) ^ 2).sum) / x.length

/-- `ss.standardDeviation`: `0` for a single data point, else
`√variance`. -/
def standardDeviation (x : List ℝ) : ℝ :=
  if x.length = 1 then 0 else Real.sqrt (variance x)

/-- `ss.sampleVariance` (squared deviations over `n - 1`); the library
throws for `n < 2`, which its only callers here rule out. -/
def sampleVariance (x : List ℝ) : ℝ :=
  ((x.map fun v => (v - mean x) ^ 2).sum) / (x.length - 1)

/-- `ss.sampleStandardDeviation`. -/
def sampleStandardDeviation (x : List ℝ) : ℝ :=
  Real.sqrt (sampleVariance x)

/-- `ss.sampleCovariance` over `n - 1`. -/
def sampleCovariance (x y : List ℝ) : ℝ :=
  (((x.zip y).map fun p => (p.1 - mean x) * (p.2 - mean y)).sum) / (x.length - 1)

/-- `ss.sampleCorrelation`: throws (here: `none`) when the samples have
different lengths or fewer than two points, else
`sampleCovariance / (σₓ · σᵧ)`. -/
def sampleCorrelationOpt (x y : List ℝ) : Option ℝ :=
  if x.length ≠ y.length ∨ x.length < 2 then none
  else some (sampleCovariance x y /
    (sampleStandardDeviation x * sampleStandardDeviation y))

/-- `ss.quantileSorted` on an already-sorted sample (the repository
always sorts first and `ss.quantile` of a single `p` computes the same
value).  The library throws on an empty sample; the repository only
calls it with `data.length > 0` (via a non-empty numeric column). -/
def quantileSorted (x : List ℝ) (p : ℝ) : ℝ :=
  let n := x.length
  let idx : ℝ := n * p
  if n = 0 then 0
  else if p = 1 then x.getD (n - 1) 0
  else if p = 0 then x.getD 0 0
  else if Int.fract idx ≠ 0 then x.getD (⌈idx⌉.toNat - 1) 0
  else if n % 2 = 0 then (x.getD (⌊idx⌋.toNat - 1) 0 + x.getD ⌊idx⌋.toNat 0) / 2
  else x.getD ⌊idx⌋.toNat 0

/-- `ss.linearRegression` on `[x, y]` pairs, returning `(m, b)`. -/
def linearRegression (pts : List (ℝ × ℝ)) : ℝ × ℝ :=
  let n : ℝ := pts.length
  if pts.length = 1 then (0, (pts.headD (0, 0)).2)
  else
    let sumX := (pts.map Prod.fst).sum
    let sumY := (pts.map Prod.snd).sum
    let sumXX := (pts.map fun p => p.1 * p.1).sum
    let sumXY := (pts.map fun p => p.1 * p.2).sum
    let m := (n * sumXY - sumX * sumY) / (n * sumXX - sumX * sumX)
    (m, sumY / n - m * sumX / n)

/-- `ss.rSquared(x, func)` as the repository calls it.  The library
returns `1` without ever invoking `func` when `x` has fewer than two
points; otherwise it evaluates `func(x[i][0])` for every point.  Both
call sites in this repository pass the `{m, b}` regression RECORD of
`ss.linearRegression` (the second argument here, which the sub-2-point
path never consults) where the library expects a callable such as
`linearRegressionLine(regression)`, so with two or more points the
call `func(x[i][0])` raises `TypeError: func is not a function` —
modeled as `none`. -/
def rSquared (pts : List (ℝ × ℝ)) (_mb : ℝ × ℝ) : Option ℝ :=
  if pts.length < 2 then some 1 else none

end ss

namespace DataViz

/-- JS ascending numeric sort `[...values].sort((a, b) => a - b)`.
(On real-number values the result of any correct sort is the unique
sorted rearrangement, so stability is immaterial.) -/
def jsSortAsc (l : List ℝ) : List ℝ :=
  l.mergeSort fun a b => cdecide (a ≤ b)

/-- JS `Math.max(...l)` for a list known to be non-empty at the call
site (the empty case would be `-Infinity` in JS). -/
def jsMax1 (l : List ℝ) : ℝ :=
  match l with
  | [] => 0
  | h :: t => t.foldl max h

/-- JS `Math.min(...l)` for a list known to be non-empty at the call
site. -/
def jsMin1 (l : List ℝ) : ℝ :=
  match l with
  | [] => 0
  | h :: t => t.foldl min h

/-- External (impure / foreign) routines the fingerprint code calls,
made explicit parameters of the model:
the two hex digests `createHash('sha256')….substring(0, 16)` and
`createHash('md5')….substring(0, 12)`, JS number-to-string conversion,
`Number.prototype.toFixed(3)`, and the two `JSON.stringify` calls on
fixed record shapes (`computeDataHash`'s `hashData` object, keyed by
record count / sorted column list / sample checksums, and
`createAnomalySignature`'s summary object, keyed by anomaly count,
max/avg severity, cluster count and max cluster severity). -/
structure Ext where
  sha256hex16 : String → String
  md5hex12 : String → String
  numToString : ℝ → String
  toFixed3 : ℝ → String
  stringifyHashData : ℕ → List String → List String → String
  stringifySignature : ℕ → ℝ → ℝ → ℕ → ℝ → String

/-- JS `String(value)` for a record value. -/
def jsValueToString (E : Ext) : JSValue → String
  | JSValue.num x => E.numToString x
  | JSValue.nan => "NaN"
  | JSValue.str s => s
  | JSValue.bool true => "true"
  | JSValue.bool false => "false"

/-- The `point.values[column] as number` read used on numeric columns
(on a numeric column the lookup always yields a number; other cases
cannot arise there and default to `0`). -/
def numAt (point : DataPoint) (column : String) : ℝ :=
  match getValue point.values column with
  | some (JSValue.num x) => x
  | _ => 0

/-- `data.map(point => point.values[column] as number)`. -/
def columnValues (data : List DataPoint) (column : String) : List ℝ :=
  data.map fun point => numAt point column

/-- JS `Map.set` / object property assignment on a string-keyed map in
insertion order: update in place if the key exists, append otherwise. -/
def mapSet {α : Type} (m : List (String × α)) (k : String) (v : α) : List (String × α) :=
  if m.any fun p => p.1 == k then
    m.map fun p => if p.1 == k then (k, v) else p
  else
    m ++ [(k, v)]

end DataViz

end

/-! ## Pattern and fingerprint data model (`types/index.ts`,
`PatternFingerprint.ts`) -/

namespace DataViz

/-- A JSON-like value, for the algorithm-specific `parameters` /
`metadata` bags carried by patterns (never inspected by the code under
verification, only constructed). -/
inductive Json where
  | num (x : ℝ)
  | str (s : String)
  | bool (b : Bool)
  | arr (xs : List Json)
  | obj (fields : List (String × Json))
  | null

/-- `DataPattern` from `src/types/index.ts` (the optional `timeRange` is
never set by the detectors and is omitted). -/
structure DataPattern where
  type : String
  confidence : ℝ
  description : String
  parameters : List (String × Json)
  affectedColumns : List String

/-- The `distribution_type` union of `StatisticalFingerprint`. -/
inductive DistributionType where
  | normal
  | uniform
  | exponential
  | bimodal
  | unknown
deriving DecidableEq

structure StatisticalFingerprint where
  mean : ℝ
  std : ℝ
  skewness : ℝ
  kurtosis : ℝ
  entropy : ℝ
  quantiles : List ℝ
  distribution_type : DistributionType

structure TemporalFingerprint where
  seasonality_strength : ℝ
  trend_strength : ℝ
  autocorrelation_lags : List ℕ
  dominant_frequency : ℝ
  periodicity_score : ℝ
  stationarity_score : ℝ

structure RelationalFingerprint where
  correlation_matrix_hash : String
  principal_components : List ℝ
  dependency_strength : ℝ
  mutual_information : List (String × ℝ)
  network_centrality : List (String × ℝ)

/-- One temporal anomaly cluster `{ start, end, severity }` (the field
`end` is a reserved word in Lean and is rendered `endPos`). -/
structure AnomCluster where
  startPos : ℕ
  endPos : ℕ
  severity : ℝ

structure AnomalyFingerprint where
  outlier_positions : List ℕ
  outlier_severity : List ℝ
  anomaly_density : ℝ
  temporal_anomaly_clusters : List AnomCluster
  anomaly_signature : String

/-- `PatternFingerprint` (the exported interface).  `timestamp` is the
value `Date.now()` returned at creation, modelled as a `ℕ` millisecond
count. -/
structure PatternFingerprint where
  id : String
  timestamp : ℕ
  data_hash : String
  statistical : List (String × StatisticalFingerprint)
  temporal : TemporalFingerprint
  relational : RelationalFingerprint
  anomaly : AnomalyFingerprint
  pattern_types : List String
  confidence_scores : List (String × ℝ)
  similarity_vector : List ℝ

end DataViz

/-! ## The fingerprint generator (`PatternFingerprint.ts`) -/

noncomputable section

open Classical

namespace DataViz.PatternFingerprintGenerator

open DataViz

/-- `computeDataHash` (lines 553–564): sha-256 (first 16 hex chars) of
the JSON serialization of `{ length, columns: sortedKeysOfFirstRecord,
sample_checksums: first10Records.map(values joined by "|") }`. -/
def computeDataHash (E : Ext) (data : List DataPoint) : String :=
  let columns :=
    match data with
    | [] => []
    | firstRow :: _ =>
        (objectKeys firstRow.values).mergeSort fun a b => cdecide (a ≤ b)
  let sampleChecksums := (data.take 10).map fun point =>
    String.intercalate "|" (point.values.map fun kv => jsValueToString E kv.2)
  E.sha256hex16 (E.stringifyHashData data.length columns sampleChecksums)

/-- `calculateSkewness` (lines 243–250). -/
def calculateSkewness (values : List ℝ) (mean std : ℝ) : ℝ :=
  if std = 0 then 0
  else
    let n : ℝ := values.length
    let sumCubes := (values.map fun val => ((val - mean) / std) ^ 3).sum
    (n / ((n - 1) * (n - 2))) * sumCubes

/-- `calculateKurtosis` (lines 252–260). -/
def calculateKurtosis (values : List ℝ) (mean std : ℝ) : ℝ :=
  if std = 0 then 0
  else
    let n : ℝ := values.length
    let sumFourths := (values.map fun val => ((val - mean) / std) ^ 4).sum
    (n * (n + 1)) / ((n - 1) * (n - 2) * (n - 3)) * sumFourths -
      3 * (n - 1) * (n - 1) / ((n - 2) * (n - 3))

/-- The bin index `min(⌊(value - min) / binSize⌋, bins - 1)` used by
`calculateEntropy`. -/
def entropyBinIndex (mn binSize : ℝ) (value : ℝ) : ℤ :=
  min ⌊(value - mn) / binSize⌋ 9

/-- `calculateEntropy` (lines 262–287): Shannon entropy of a 10-bin
histogram; `0` when all values coincide (`binSize = 0`). -/
def calculateEntropy (values : List ℝ) : ℝ :=
  let mn := jsMin1 values
  let mx := jsMax1 values
  let binSize := (mx - mn) / 10
  if binSize = 0 then 0
  else
    -((List.range 10).map fun b =>
        let count := (values.filter fun v => cdecide (entropyBinIndex mn binSize v = b)).length
        if count > 0 then
          let probability : ℝ := count / values.length
          probability * Real.logb 2 probability
        else 0).sum

/-- `detectDistributionType` (lines 289–308). -/
def detectDistributionType (skewness kurtosis : ℝ) : DistributionType :=
  if |skewness| < 0.5 ∧ |kurtosis| < 1 then DistributionType.normal
  else if |skewness| < 0.2 ∧ |kurtosis + 1.2| < 0.5 then DistributionType.uniform
  else if skewness > 1 ∧ kurtosis > 2 then DistributionType.exponential
  else if kurtosis < -1 then DistributionType.bimodal
  else DistributionType.unknown

/-- `generateStatisticalFingerprint` (lines 88–114). -/
def generateStatisticalFingerprint (values : List ℝ) : StatisticalFingerprint :=
  let mean := ss.mean values
  let std := ss.standardDeviation values
  let skewness := calculateSkewness values mean std
  let kurtosis := calculateKurtosis values mean std
  let sorted := jsSortAsc values
  { mean := mean
    std := std
    skewness := skewness
    kurtosis := kurtosis
    entropy := calculateEntropy values
    quantiles := [ss.quantileSorted sorted 0.25, ss.quantileSorted sorted 0.5,
      ss.quantileSorted sorted 0.75, ss.quantileSorted sorted 1]
    distribution_type := detectDistributionType skewness kurtosis }

/-- `autocorrelation` (lines 402–420). -/
def autocorrelation (values : List ℝ) (lag : ℕ) : ℝ :=
  if lag ≥ values.length then 0
  else
    let mean := ss.mean values
    let numerator := ((values.zip (values.drop lag)).map fun p =>
      (p.1 - mean) * (p.2 - mean)).sum
    let denominator := (values.map fun v => (v - mean) * (v - mean)).sum
    if denominator = 0 then 0 else numerator / denominator

/-- `calculateSeasonalityStrength` (lines 310–325): max `|autocorr|`
over the candidate periods {7, 12, 24, 30, 365} strictly below `n / 2`;
`0` for fewer than 24 values. -/
def calculateSeasonalityStrength (values : List ℝ) : ℝ :=
  if values.length < 24 then 0
  else
    ([7, 12, 24, 30, 365] : List ℕ).foldl
      (fun (maxSeasonality : ℝ) (period : ℕ) =>
        if (period : ℝ) < (values.length : ℝ) / 2 then
          max maxSeasonality |autocorrelation values period|
        else maxSeasonality) 0

/-- `calculateTrendStrength` (lines 327–335): `0` for fewer than 3
values.  Otherwise the `ss.rSquared` call — passed the `{m, b}`
regression record where the library expects a callable, with no
`try`/`catch` in this method to contain it — raises `TypeError`
(`none`), so the computation fails for EVERY series of 3 or more
values. -/
def calculateTrendStrength (values : List ℝ) : Option ℝ :=
  if values.length < 3 then some 0
  else
    let pts := values.enum.map fun p => ((p.1 : ℝ), p.2)
    ss.rSquared pts (ss.linearRegression pts)

/-- `findSignificantLags` (lines 337–349): the first 10 lags in
`1 .. min(50, ⌊n/4⌋)` with `|autocorr| > 0.3`. -/
def findSignificantLags (values : List ℝ) : List ℕ :=
  let maxLag := min 50 (values.length / 4)
  (((List.range maxLag).map (· + 1)).filter fun lag =>
    cdecide (|autocorrelation values lag| > 0.3)).take 10

/-- `findDominantFrequency` (lines 351–366): `1 / period` of the
strictly-largest `|autocorr|` over lags `2 ≤ lag < min(n/2, 100)`
(earliest lag wins ties); `0` if no positive correlation found. -/
def findDominantFrequency (values : List ℝ) : ℝ :=
  let lags := (List.range 100).filter fun (lag : ℕ) =>
    cdecide (2 ≤ lag ∧ (lag : ℝ) < min ((values.length : ℝ) / 2) 100)
  let best := lags.foldl
    (fun (acc : ℝ × ℕ) (lag : ℕ) =>
      let corr := |autocorrelation values lag|
      if corr > acc.1 then (corr, lag) else acc) ((0 : ℝ), (0 : ℕ))
  if best.2 > 0 then 1 / (best.2 : ℝ) else 0

/-- `calculatePeriodicityScore` (lines 368–381).  (With exactly one
significant lag the spacing list is empty and the library `ss.mean` /
`ss.variance` would throw in JS; the model yields the neutral `0 / 0 = 0`
there — no claim below depends on this case.) -/
def calculatePeriodicityScore (values : List ℝ) : ℝ :=
  let significantLags := findSignificantLags values
  if significantLags.length = 0 then 0
  else
    let spacings := (significantLags.tail.zip significantLags).map
      fun p => (p.1 : ℝ) - (p.2 : ℝ)
    let avgSpacing := ss.mean spacings
    let spacingVariance := ss.variance spacings
    if avgSpacing > 0 then 1 / (1 + spacingVariance / (avgSpacing * avgSpacing)) else 0

/-- `calculateStationarityScore` (lines 383–400): inverse relative
variance of rolling-window means, window `max(10, ⌊n/10⌋)`. -/
def calculateStationarityScore (values : List ℝ) : ℝ :=
  let windowSize := max 10 (values.length / 10)
  let rollingMeans := (List.range (values.length + 1 - windowSize)).map
    fun i => ss.mean ((values.drop i).take windowSize)
  if rollingMeans.length < 2 then 1
  else
    let meanVariance := ss.variance rollingMeans
    let overallMean := ss.mean values
    1 / (1 + meanVariance / (overallMean * overallMean))

/-- `generateTemporalFingerprint` (lines 116–149): computed from the
first numeric column only; all-zero when there is none.  The
`calculateTrendStrength` call throws for every first-column series of
3 or more values (`none`); the other five component computations are
total. -/
def generateTemporalFingerprint (data : List DataPoint) (numericColumns : List String) :
    Option TemporalFingerprint :=
  match numericColumns with
  | [] =>
      some
        { seasonality_strength := 0, trend_strength := 0, autocorrelation_lags := [],
          dominant_frequency := 0, periodicity_score := 0, stationarity_score := 0 }
  | firstCol :: _ =>
      let values := columnValues data firstCol
      (calculateTrendStrength values).map fun trend =>
        { seasonality_strength := calculateSeasonalityStrength values
          trend_strength := trend
          autocorrelation_lags := findSignificantLags values
          dominant_frequency := findDominantFrequency values
          periodicity_score := calculatePeriodicityScore values
          stationarity_score := calculateStationarityScore values }

/-- `calculateCorrelationMatrix` (lines 422–444): pairwise
`ss.sampleCorrelation` with `1` on the diagonal and `0` where the
library call throws (`try`/`catch`). -/
def calculateCorrelationMatrix (data : List DataPoint) (columns : List String) :
    List (List ℝ) :=
  (List.range columns.length).map fun i =>
    (List.range columns.length).map fun j =>
      if i = j then 1
      else
        (ss.sampleCorrelationOpt
          (columnValues data (columns.getD i ""))
          (columnValues data (columns.getD j ""))).getD 0

/-- `hashMatrix` (lines 446–452). -/
def hashMatrix (E : Ext) (matrix : List (List ℝ)) : String :=
  E.sha256hex16 (String.intercalate ";"
    (matrix.map fun row => String.intercalate "," (row.map E.toFixed3)))

/-- `calculatePrincipalComponents` (lines 454–457): the matrix
diagonal. -/
def calculatePrincipalComponents (matrix : List (List ℝ)) : List ℝ :=
  matrix.enum.map fun p => p.2.getD p.1 0

/-- `calculateDependencyStrength` (lines 459–474): mean absolute
off-diagonal correlation. -/
def calculateDependencyStrength (matrix : List (List ℝ)) : ℝ :=
  let n := matrix.length
  if n < 2 then 0
  else
    let offDiag := (List.range n).flatMap fun i =>
      ((List.range n).filter fun j => i < j).map fun j =>
        |(matrix.getD i []).getD j 0|
    if offDiag.length > 0 then offDiag.sum / offDiag.length else 0

/-- `calculateMutualInformation` (lines 476–494): per ordered pair
`i < j`, the key `"col1-col2"` mapped to `|sampleCorrelation|` (`|| 0`
replaces a `NaN`/failed value by `0`; the unguarded library call cannot
throw at this call site only when `n ≥ 2` — the model totalizes it with
the same neutral `0`). -/
def calculateMutualInformation (data : List DataPoint) (columns : List String) :
    List (String × ℝ) :=
  ((List.range columns.length).flatMap fun i =>
    ((List.range columns.length).filter fun j => i < j).map fun j =>
      (columns.getD i "" ++ "-" ++ columns.getD j "",
        |(ss.sampleCorrelationOpt (columnValues data (columns.getD i ""))
          (columnValues data (columns.getD j ""))).getD 0|)).foldl
    (fun acc kv => mapSet acc kv.1 kv.2) []

/-- `calculateNetworkCentrality` (lines 496–512): per column, the mean
absolute correlation to all other columns. -/
def calculateNetworkCentrality (matrix : List (List ℝ)) (columns : List String) :
    List (String × ℝ) :=
  (List.range columns.length).foldl
    (fun acc i =>
      let row := matrix.getD i []
      let degree := (((List.range columns.length).filter fun j => i ≠ j).map
        fun j => |row.getD j 0|).sum
      mapSet acc (columns.getD i "") (degree / (columns.length - 1 : ℝ))) []

/-- `generateRelationalFingerprint` (lines 151–188): empty/zero for
fewer than two numeric columns. -/
def generateRelationalFingerprint (E : Ext) (data : List DataPoint)
    (numericColumns : List String) : RelationalFingerprint :=
  if numericColumns.length < 2 then
    { correlation_matrix_hash := "", principal_components := [],
      dependency_strength := 0, mutual_information := [], network_centrality := [] }
  else
    let correlationMatrix := calculateCorrelationMatrix data numericColumns
    { correlation_matrix_hash := hashMatrix E correlationMatrix
      principal_components := calculatePrincipalComponents correlationMatrix
      dependency_strength := calculateDependencyStrength correlationMatrix
      mutual_information := calculateMutualInformation data numericColumns
      network_centrality := calculateNetworkCentrality correlationMatrix numericColumns }

/-- The IQR-outlier scan of `generateAnomalyFingerprint`
(lines 209–219): for each index whose value lies outside the fences,
record `(index, max(|v - lowerBound|, |v - upperBound|) / iqr)`. -/
def outlierPairs (values : List ℝ) (lowerBound upperBound iqr : ℝ) : List (ℕ × ℝ) :=
  values.enum.filterMap fun p =>
    if p.2 < lowerBound ∨ p.2 > upperBound then
      some (p.1, max (|p.2 - lowerBound| / iqr) (|p.2 - upperBound| / iqr))
    else none

/-- The inner loop of `findAnomalyClusters` (lines 523–533), carried
over the remaining `(position, severity)` pairs. -/
def findAnomalyClustersAux (cur : AnomCluster) : List (ℕ × ℝ) → List AnomCluster
  | [] => [cur]
  | (p, s) :: rest =>
      if p - cur.endPos ≤ 5 then
        findAnomalyClustersAux
          { cur with endPos := p, severity := max cur.severity s } rest
      else
        cur :: findAnomalyClustersAux { startPos := p, endPos := p, severity := s } rest

/-- `findAnomalyClusters` (lines 514–535): greedy runs of outlier
positions within 5-index gaps, then only clusters with severity > 1.5
are kept. -/
def findAnomalyClusters (positions : List ℕ) (severities : List ℝ) : List AnomCluster :=
  match positions.zip severities with
  | [] => []
  | (p, s) :: rest =>
      (findAnomalyClustersAux { startPos := p, endPos := p, severity := s } rest).filter
        fun cluster => cdecide (cluster.severity > 1.5)

/-- `createAnomalySignature` (lines 537–551): md5 (first 12 hex chars)
of the JSON summary record. -/
def createAnomalySignature (E : Ext) (positions : List ℕ) (severities : List ℝ)
    (clusters : List AnomCluster) : String :=
  E.md5hex12 (E.stringifySignature
    positions.length
    (severities.foldl max 0)
    (if severities.length > 0 then ss.mean severities else 0)
    clusters.length
    (if clusters.length > 0 then jsMax1 (clusters.map (·.severity)) else 0))

/-- `generateAnomalyFingerprint` (lines 190–241): IQR outliers
(1.5 × IQR fences) on the first numeric column. -/
def generateAnomalyFingerprint (E : Ext) (data : List DataPoint)
    (numericColumns : List String) : AnomalyFingerprint :=
  let scan : List (ℕ × ℝ) × ℝ :=
    match numericColumns with
    | [] => ([], 0)
    | firstCol :: _ =>
        let values := columnValues data firstCol
        let sorted := jsSortAsc values
        let q1 := ss.quantileSorted sorted 0.25
        let q3 := ss.quantileSorted sorted 0.75
        let iqr := q3 - q1
        let pairs := outlierPairs values (q1 - 1.5 * iqr) (q3 + 1.5 * iqr) iqr
        (pairs, (pairs.length : ℝ) / values.length)
  let outlier_positions := scan.1.map Prod.fst
  let outlier_severity := scan.1.map Prod.snd
  let temporal_anomaly_clusters := findAnomalyClusters outlier_positions outlier_severity
  { outlier_positions := outlier_positions
    outlier_severity := outlier_severity
    anomaly_density := scan.2
    temporal_anomaly_clusters := temporal_anomaly_clusters
    anomaly_signature :=
      createAnomalySignature E outlier_positions outlier_severity temporal_anomaly_clusters }

/-- `extractConfidenceScores` (lines 566–574): later patterns of the
same type overwrite earlier scores. -/
def extractConfidenceScores (patterns : List DataPattern) : List (String × ℝ) :=
  patterns.foldl (fun scores pattern => mapSet scores pattern.type pattern.confidence) []

/-- `normalize` (lines 622–624). -/
def normalize (value mn mx : ℝ) : ℝ :=
  max 0 (min 1 ((value - mn) / (mx - mn)))

/-- `generateSimilarityVector` (lines 576–620). -/
def generateSimilarityVector (fingerprint : PatternFingerprint) : List ℝ :=
  (fingerprint.statistical.flatMap fun kv =>
    [normalize kv.2.mean (-10) 10,
     normalize kv.2.std 0 10,
     normalize kv.2.skewness (-3) 3,
     normalize kv.2.kurtosis (-3) 3,
     normalize kv.2.entropy 0 4]) ++
  [fingerprint.temporal.seasonality_strength,
   fingerprint.temporal.trend_strength,
   fingerprint.temporal.periodicity_score,
   fingerprint.temporal.stationarity_score] ++
  [fingerprint.relational.dependency_strength,
   if fingerprint.relational.principal_components.length > 0 then
     ss.mean fingerprint.relational.principal_components else 0] ++
  [fingerprint.anomaly.anomaly_density,
   if fingerprint.anomaly.outlier_severity.length > 0 then
     ss.mean fingerprint.anomaly.outlier_severity else 0] ++
  ((["trend", "seasonal", "correlation", "cluster", "anomaly"] : List String).map
    fun t => if fingerprint.pattern_types.contains t then (1 : ℝ) else 0)

/-- `calculateSimilarity` (lines 638–659): cosine similarity of the two
similarity vectors; `0` when the vector lengths differ or the
denominator `√norm1 · √norm2` is zero. -/
def calculateSimilarity (fingerprint1 fingerprint2 : PatternFingerprint) : ℝ :=
  if fingerprint1.similarity_vector.length ≠ fingerprint2.similarity_vector.length then 0
  else
    let dotProduct := ((fingerprint1.similarity_vector.zip
      fingerprint2.similarity_vector).map fun p => p.1 * p.2).sum
    let norm1 := (fingerprint1.similarity_vector.map fun v => v * v).sum
    let norm2 := (fingerprint2.similarity_vector.map fun v => v * v).sum
    let denominator := Real.sqrt norm1 * Real.sqrt norm2
    if denominator = 0 then 0 else dotProduct / denominator

/-- `generateFingerprint` (lines 55–86).  The two reads of the impure
clock `Date.now()` — one interpolated into the fingerprint `id`
(through the JS number-to-string conversion `E.numToString`, as the
template literal does), one stored as `timestamp` — are the explicit
arguments `tId` and `tStamp`; everything else is a function of
`(data, patterns, connectionId)` and the external routines `E`.
The awaited `generateTemporalFingerprint` throws whenever the first
numeric column has 3 or more values (the unguarded `ss.rSquared`
`TypeError` inside `calculateTrendStrength`), rejecting the whole call
(`none`); every other component computation is total. -/
def generateFingerprint (E : Ext) (data : List DataPoint) (patterns : List DataPattern)
    (connectionId : String) (tId tStamp : ℕ) : Option PatternFingerprint :=
  let numericColumns := getNumericColumns data
  match generateTemporalFingerprint data numericColumns with
  | none => none
  | some temporal =>
      let fingerprint : PatternFingerprint :=
        { id := "fingerprint_" ++ connectionId ++ "_" ++ E.numToString (tId : ℝ)
          timestamp := tStamp
          data_hash := computeDataHash E data
          statistical := numericColumns.foldl
            (fun acc column =>
              mapSet acc column (generateStatisticalFingerprint (columnValues data column))) []
          temporal := temporal
          relational := generateRelationalFingerprint E data numericColumns
          anomaly := generateAnomalyFingerprint E data numericColumns
          pattern_types := patterns.map (·.type)
          confidence_scores := extractConfidenceScores patterns
          similarity_vector := [] }
      some { fingerprint with similarity_vector := generateSimilarityVector fingerprint }

end DataViz.PatternFingerprintGenerator

end

namespace DataViz

/-- A concrete instantiation of the external routines, used to evaluate
the model on closed inputs. -/
def trivExt : Ext :=
  { sha256hex16 := fun _ => ""
    md5hex12 := fun _ => ""
    numToString := fun _ => ""
    toFixed3 := fun _ => ""
    stringifyHashData := fun _ _ _ => ""
    stringifySignature := fun _ _ _ _ _ => "" }

open PatternFingerprintGenerator

/-- **C1.**  `generateFingerprint` is deterministic in its content hash
and per-field statistical signatures: for every dataset, pattern list
and caller id (and any behaviour of the external hash/serialization
routines `E`), two calls on identical `(D, P)` — i.e. at any two pairs
of clock readings — behave identically: either both throw (the
`calculateTrendStrength` `TypeError`, on any dataset whose first
numeric column has 3 or more values), or both complete with identical
`data_hash` and identical `statistical` maps. -/
theorem generateFingerprint_deterministic (E : Ext) (data : List DataPoint)
    (patterns : List DataPattern) (connectionId : String) (tId tStamp tId' tStamp' : ℕ) :
    (generateFingerprint E data patterns connectionId tId tStamp).map (fun fp => fp.data_hash) =
      (generateFingerprint E data patterns connectionId tId' tStamp').map
        (fun fp => fp.data_hash) ∧
    (generateFingerprint E data patterns connectionId tId tStamp).map (fun fp => fp.statistical) =
      (generateFingerprint E data patterns connectionId tId' tStamp').map
        (fun fp => fp.statistical) := by
  constructor <;>
    cases h : generateTemporalFingerprint data (getNumericColumns data) <;>
      simp [generateFingerprint, h]

/-- **C2, counterexample.**  `generateFingerprint` is NOT a pure
function of `(dataset, patterns, id)` alone: two invocations with
identical inputs (here the empty dataset, on which the call completes)
but different `Date.now()` readings return fingerprints that differ in
the `timestamp` field (and in `id`). -/
theorem generateFingerprint_not_pure_counterexample :
    (generateFingerprint trivExt [] [] "conn" 0 0).map (fun fp => fp.timestamp) ≠
      (generateFingerprint trivExt [] [] "conn" 1 1).map (fun fp => fp.timestamp) := by
  simp [generateFingerprint, generateTemporalFingerprint,
    PatternFingerprintGenerator.getNumericColumns]

/-- **C2, amended.**  `generateFingerprint` is a pure function of its
three inputs TOGETHER WITH the clock: for identical
`(dataset, patterns, id)` the two calls either both throw, or both
complete with fingerprints agreeing on every field except `id` and
`timestamp` (which embed the `Date.now()` readings); and whenever the
clock readings also coincide the two calls return identical results,
`id` and `timestamp` included. -/
theorem generateFingerprint_pure_modulo_clock (E : Ext) (data : List DataPoint)
    (patterns : List DataPattern) (connectionId : String) (tId tStamp tId' tStamp' : ℕ) :
    (generateFingerprint E data patterns connectionId tId tStamp).map (fun fp => fp.data_hash) =
      (generateFingerprint E data patterns connectionId tId' tStamp').map
        (fun fp => fp.data_hash) ∧
    (generateFingerprint E data patterns connectionId tId tStamp).map (fun fp => fp.statistical) =
      (generateFingerprint E data patterns connectionId tId' tStamp').map
        (fun fp => fp.statistical) ∧
    (generateFingerprint E data patterns connectionId tId tStamp).map (fun fp => fp.temporal) =
      (generateFingerprint E data patterns connectionId tId' tStamp').map
        (fun fp => fp.temporal) ∧
    (generateFingerprint E data patterns connectionId tId tStamp).map (fun fp => fp.relational) =
      (generateFingerprint E data patterns connectionId tId' tStamp').map
        (fun fp => fp.relational) ∧
    (generateFingerprint E data patterns connectionId tId tStamp).map (fun fp => fp.anomaly) =
      (generateFingerprint E data patterns connectionId tId' tStamp').map
        (fun fp => fp.anomaly) ∧
    (generateFingerprint E data patterns connectionId tId tStamp).map
        (fun fp => fp.pattern_types) =
      (generateFingerprint E data patterns connectionId tId' tStamp').map
        (fun fp => fp.pattern_types) ∧
    (generateFingerprint E data patterns connectionId tId tStamp).map
        (fun fp => fp.confidence_scores) =
      (generateFingerprint E data patterns connectionId tId' tStamp').map
        (fun fp => fp.confidence_scores) ∧
    (generateFingerprint E data patterns connectionId tId tStamp).map
        (fun fp => fp.similarity_vector) =
      (generateFingerprint E data patterns connectionId tId' tStamp').map
        (fun fp => fp.similarity_vector) ∧
    (tId = tId' → tStamp = tStamp' →
      generateFingerprint E data patterns connectionId tId tStamp =
        generateFingerprint E data patterns connectionId tId' tStamp') := by
  refine ⟨?_, ?_, ?_, ?_, ?_, ?_, ?_, ?_, ?_⟩ <;>
    first
      | (rintro rfl rfl; rfl)
      | (cases h : generateTemporalFingerprint data (getNumericColumns data) <;>
          simp [generateFingerprint, h] <;> rfl)

/-- Witness for the amended C2 at concrete inputs (the empty dataset,
on which generation completes): the clock-independent fields agree
across different clock readings, and at equal clock readings the whole
results coincide. -/
theorem generateFingerprint_pure_modulo_clock_witness :
    (generateFingerprint trivExt [] [] "conn" 0 0).map (fun fp => fp.data_hash) =
      (generateFingerprint trivExt [] [] "conn" 1 1).map (fun fp => fp.data_hash) ∧
    generateFingerprint trivExt [] [] "conn" 2 3 =
      generateFingerprint trivExt [] [] "conn" 2 3 :=
  ⟨(generateFingerprint_pure_modulo_clock trivExt [] [] "conn" 0 0 1 1).1,
   (generateFingerprint_pure_modulo_clock trivExt [] [] "conn" 2 3 2 3).2.2.2.2.2.2.2.2 rfl rfl⟩

/-- A fingerprint with a prescribed id and similarity vector and trivial
remaining fields, used to evaluate the similarity/cluster model on
closed inputs. -/
def testFingerprint (idv : String) (vec : List ℝ) : PatternFingerprint :=
  { id := idv
    timestamp := 0
    data_hash := ""
    statistical := []
    temporal :=
      { seasonality_strength := 0, trend_strength := 0, autocorrelation_lags := [],
        dominant_frequency := 0, periodicity_score := 0, stationarity_score := 0 }
    relational :=
      { correlation_matrix_hash := "", principal_components := [],
        dependency_strength := 0, mutual_information := [], network_centrality := [] }
    anomaly :=
      { outlier_positions := [], outlier_severity := [], anomaly_density := 0,
        temporal_anomaly_clusters := [], anomaly_signature := "" }
    pattern_types := []
    confidence_scores := []
    similarity_vector := vec }

/-- **C3.**  `calculateSimilarity` returns `0` — and, being a total
function of the model, raises no exception — whenever the two
similarity vectors have different lengths or either vector has zero
norm (zero sum of squares). -/
theorem calculateSimilarity_degenerate_eq_zero (a b : PatternFingerprint)
    (h : a.similarity_vector.length ≠ b.similarity_vector.length ∨
      (a.similarity_vector.map fun v => v * v).sum = 0 ∨
      (b.similarity_vector.map fun v => v * v).sum = 0) :
    calculateSimilarity a b = 0 := by
  unfold calculateSimilarity
  rcases h with h | h | h
  · rw [if_pos h]
  · rcases ne_or_eq a.similarity_vector.length b.similarity_vector.length with hl | hl
    · rw [if_pos hl]
    · rw [if_neg (by simp [hl])]
      simp only [h, Real.sqrt_zero, zero_mul, ite_true, if_pos]
  · rcases ne_or_eq a.similarity_vector.length b.similarity_vector.length with hl | hl
    · rw [if_pos hl]
    · rw [if_neg (by simp [hl])]
      simp only [h, Real.sqrt_zero, mul_zero, ite_true, if_pos]

/-- Witness for C3: the length-mismatch case and the zero-norm case at
concrete vectors. -/
theorem calculateSimilarity_degenerate_eq_zero_witness :
    calculateSimilarity (testFingerprint "a" [1]) (testFingerprint "b" [1, 2]) = 0 ∧
    calculateSimilarity (testFingerprint "a" [0, 0]) (testFingerprint "b" [1, 2]) = 0 :=
  ⟨calculateSimilarity_degenerate_eq_zero _ _ (Or.inl (by simp [testFingerprint])),
   calculateSimilarity_degenerate_eq_zero _ _ (Or.inr (Or.inl (by simp [testFingerprint])))⟩

theorem zip_mul_sum_comm (xs ys : List ℝ) :
    ((xs.zip ys).map fun p => p.1 * p.2).sum = ((ys.zip xs).map fun p => p.1 * p.2).sum := by
  induction xs generalizing ys with
  | nil => cases ys <;> simp
  | cons x xs ih =>
      cases ys with
      | nil => simp
      | cons y ys => simpa [mul_comm] using ih ys

theorem mem_outlierPairs (values : List ℝ) (lb ub iqr : ℝ) (pr : ℕ × ℝ)
    (hmem : pr ∈ PatternFingerprintGenerator.outlierPairs values lb ub iqr) :
    ∃ v, values[pr.1]? = some v ∧ (v < lb ∨ v > ub) ∧
      pr.2 = max (|v - lb| / iqr) (|v - ub| / iqr) := by
  unfold PatternFingerprintGenerator.outlierPairs at hmem
  rw [List.mem_filterMap] at hmem
  obtain ⟨⟨i, v⟩, hin, hf⟩ := hmem
  by_cases h : v < lb ∨ v > ub
  · rw [if_pos h] at hf
    obtain rfl := Option.some.inj hf
    exact ⟨v, List.mem_enum_iff_getElem?.1 hin, h, rfl⟩
  · rw [if_neg h] at hf
    exact absurd hf (Option.noConfusion)

/-- With `0 < iqr` and the fences `4·iqr` apart, the recorded severity
`max(|v - lb|, |v - ub|) / iqr` equals the fractional distance beyond
the NEARER fence plus `4`. -/
theorem severity_closed_form (lb iqr v : ℝ) (hiqr : 0 < iqr)
    (h : v < lb ∨ v > lb + 4 * iqr) :
    max (|v - lb| / iqr) (|v - (lb + 4 * iqr)| / iqr) =
      (if v < lb then lb - v else v - (lb + 4 * iqr)) / iqr + 4 := by
  rcases h with h | h
  · rw [if_pos h]
    rw [abs_of_neg (by linarith), abs_of_neg (by linarith)]
    rw [max_eq_right (div_le_div_of_nonneg_right (by linarith) hiqr.le)]
    field_simp
    ring
  · rw [if_neg (by push_neg; nlinarith)]
    rw [abs_of_pos (by nlinarith), abs_of_pos (by linarith)]
    rw [max_eq_left (div_le_div_of_nonneg_right (by linarith) hiqr.le)]
    field_simp
    ring

/-- **C4.**  `calculateSimilarity` is symmetric:
`calculateSimilarity(a, b) = calculateSimilarity(b, a)` for every pair
of fingerprints. -/
theorem calculateSimilarity_symm (a b : PatternFingerprint) :
    calculateSimilarity a b = calculateSimilarity b a := by
  unfold calculateSimilarity
  rcases ne_or_eq a.similarity_vector.length b.similarity_vector.length with hl | hl
  · rw [if_pos hl, if_pos (Ne.symm hl)]
  · have h1 : ¬a.similarity_vector.length ≠ b.similarity_vector.length := by simp [hl]
    have h2 : ¬b.similarity_vector.length ≠ a.similarity_vector.length := by simp [hl]
    rw [if_neg h1, if_neg h2]
    simp only
    rw [zip_mul_sum_comm,
      mul_comm (Real.sqrt ((a.similarity_vector.map fun v => v * v).sum))
        (Real.sqrt ((b.similarity_vector.map fun v => v * v).sum))]

/-- **C6, amended.**  In `generateAnomalyFingerprint` (the anomaly
component of `generateFingerprint`), for every dataset and numeric
column list whose first column is non-degenerate (IQR > 0), each
recorded outlier has severity equal to its fractional distance beyond
the nearer IQR fence, normalized by the IQR, PLUS 4 — equivalently,
the distance beyond the FARTHER fence normalized by the IQR: the code
takes `max(|v - lowerBound|, |v - upperBound|) / iqr`, and the two
fences are `4·iqr` apart.  (At the whole-program level the enclosing
`generateFingerprint` throws in `calculateTrendStrength` — BEFORE this
anomaly computation — on every dataset whose first numeric column has
3 or more values, and no shorter column yields an outlier, so no
completed run ever records a severity; see the counterexample's last
conjunct.) -/
theorem anomaly_severity_offset_by_four (E : Ext) (data : List DataPoint)
    (firstCol : String) (rest : List String)
    (hiqr : 0 < ss.quantileSorted (jsSortAsc (columnValues data firstCol)) 0.75 -
        ss.quantileSorted (jsSortAsc (columnValues data firstCol)) 0.25) :
    ∀ pr ∈ (PatternFingerprintGenerator.generateAnomalyFingerprint E data
          (firstCol :: rest)).outlier_positions.zip
        (PatternFingerprintGenerator.generateAnomalyFingerprint E data
          (firstCol :: rest)).outlier_severity,
      ∃ v, (columnValues data firstCol)[pr.1]? = some v ∧
        (v < ss.quantileSorted (jsSortAsc (columnValues data firstCol)) 0.25 -
            1.5 * (ss.quantileSorted (jsSortAsc (columnValues data firstCol)) 0.75 -
              ss.quantileSorted (jsSortAsc (columnValues data firstCol)) 0.25) ∨
         v > ss.quantileSorted (jsSortAsc (columnValues data firstCol)) 0.75 +
            1.5 * (ss.quantileSorted (jsSortAsc (columnValues data firstCol)) 0.75 -
              ss.quantileSorted (jsSortAsc (columnValues data firstCol)) 0.25)) ∧
        pr.2 = (if v < ss.quantileSorted (jsSortAsc (columnValues data firstCol)) 0.25 -
              1.5 * (ss.quantileSorted (jsSortAsc (columnValues data firstCol)) 0.75 -
                ss.quantileSorted (jsSortAsc (columnValues data firstCol)) 0.25)
            then ss.quantileSorted (jsSortAsc (columnValues data firstCol)) 0.25 -
              1.5 * (ss.quantileSorted (jsSortAsc (columnValues data firstCol)) 0.75 -
                ss.quantileSorted (jsSortAsc (columnValues data firstCol)) 0.25) - v
            else v - (ss.quantileSorted (jsSortAsc (columnValues data firstCol)) 0.75 +
              1.5 * (ss.quantileSorted (jsSortAsc (columnValues data firstCol)) 0.75 -
                ss.quantileSorted (jsSortAsc (columnValues data firstCol)) 0.25))) /
          (ss.quantileSorted (jsSortAsc (columnValues data firstCol)) 0.75 -
            ss.quantileSorted (jsSortAsc (columnValues data firstCol)) 0.25) + 4 := by
  intro pr hpr
  set values := columnValues data firstCol with hvalues
  set q1 := ss.quantileSorted (jsSortAsc values) 0.25 with hq1
  set q3 := ss.quantileSorted (jsSortAsc values) 0.75 with hq3
  simp only [PatternFingerprintGenerator.generateAnomalyFingerprint] at hpr
  rw [List.zip_map'] at hpr
  simp only [Prod.mk.eta, List.map_id, List.map_id'] at hpr
  obtain ⟨v, hv, houtlier, hsev⟩ := mem_outlierPairs _ _ _ _ _ hpr
  have hub : q3 + 1.5 * (q3 - q1) = (q1 - 1.5 * (q3 - q1)) + 4 * (q3 - q1) := by ring
  refine ⟨v, hv, ?_, ?_⟩
  · exact houtlier
  · rw [hsev, hub]
    rw [hub] at houtlier
    exact severity_closed_form _ _ _ hiqr houtlier

/-- Five records with single numeric field `x` taking values
`1, 2, 3, 4, 100`: quartiles `q1 = 2`, `q3 = 4`, `iqr = 2`, fences
`-1` and `7`, one outlier `100` at index `4`. -/
def c6Data : List DataPoint :=
  [{ id := "r0", timestamp := 0, values := [("x", JSValue.num 1)] },
   { id := "r1", timestamp := 0, values := [("x", JSValue.num 2)] },
   { id := "r2", timestamp := 0, values := [("x", JSValue.num 3)] },
   { id := "r3", timestamp := 0, values := [("x", JSValue.num 4)] },
   { id := "r4", timestamp := 0, values := [("x", JSValue.num 100)] }]

theorem c6_columnValues : columnValues c6Data "x" = [1, 2, 3, 4, 100] := rfl

/-- Witness for C10 at the concrete dataset `c6Data` and field
`"x"`. -/
theorem numeric_columns_characterization_witness :
    PatternDetector.getNumericColumns = PatternFingerprintGenerator.getNumericColumns ∧
    ("x" ∈ PatternDetector.getNumericColumns c6Data ↔
      ∃ firstRow rest, c6Data = firstRow :: rest ∧
        "x" ∈ objectKeys firstRow.values ∧
        ∀ point ∈ c6Data, ∃ x : ℝ, getValue point.values "x" = some (JSValue.num x)) :=
  numeric_columns_characterization c6Data "x"

theorem c6_sorted : jsSortAsc [(1 : ℝ), 2, 3, 4, 100] = [1, 2, 3, 4, 100] := by
  apply List.mergeSort_of_sorted
  simp only [List.pairwise_cons, List.mem_cons, List.mem_singleton, cdecide_eq_true_iff]
  norm_num

theorem c6_q1 : ss.quantileSorted [(1 : ℝ), 2, 3, 4, 100] 0.25 = 2 := by
  have hceil : (⌈((5 : ℕ) : ℝ) * 0.25⌉ : ℤ) = 2 := by
    rw [Int.ceil_eq_iff]; norm_num
  have hfract : Int.fract (((5 : ℕ) : ℝ) * 0.25) ≠ 0 := by
    rw [Int.fract,
      show (⌊((5 : ℕ) : ℝ) * 0.25⌋ : ℤ) = 1 by rw [Int.floor_eq_iff]; norm_num]
    norm_num
  simp only [ss.quantileSorted, List.length_cons, List.length_nil]
  rw [if_neg (by norm_num), if_neg (by norm_num), if_neg (by norm_num), if_pos hfract, hceil]
  rfl

theorem c6_q3 : ss.quantileSorted [(1 : ℝ), 2, 3, 4, 100] 0.75 = 4 := by
  have hceil : (⌈((5 : ℕ) : ℝ) * 0.75⌉ : ℤ) = 4 := by
    rw [Int.ceil_eq_iff]; norm_num
  have hfract : Int.fract (((5 : ℕ) : ℝ) * 0.75) ≠ 0 := by
    rw [Int.fract,
      show (⌊((5 : ℕ) : ℝ) * 0.75⌋ : ℤ) = 3 by rw [Int.floor_eq_iff]; norm_num]
    norm_num
  simp only [ss.quantileSorted, List.length_cons, List.length_nil]
  rw [if_neg (by norm_num), if_neg (by norm_num), if_neg (by norm_num), if_pos hfract, hceil]
  rfl

theorem c6_anomaly_eval :
    (PatternFingerprintGenerator.generateAnomalyFingerprint trivExt c6Data
        ["x"]).outlier_positions = [4] ∧
    (PatternFingerprintGenerator.generateAnomalyFingerprint trivExt c6Data
        ["x"]).outlier_severity = [50.5] := by
  simp only [PatternFingerprintGenerator.generateAnomalyFingerprint, c6_columnValues,
    c6_sorted, c6_q1, c6_q3]
  unfold PatternFingerprintGenerator.outlierPairs
  norm_num [List.enum, List.enumFrom, List.filterMap_cons, max_def]

/-- **C6, counterexample.**  On the dataset `c6Data` (first numeric
field `"x"` with values `1, 2, 3, 4, 100`; `q1 = 2`, `q3 = 4`,
`IQR = 2`, fences `-1` and `7`) `generateAnomalyFingerprint` records a
single outlier, value `100` at index `4`, whose fractional distance
beyond the nearer (upper) fence normalized by the IQR is
`(100 - 7) / 2 = 46.5`, but the recorded severity is `50.5` (the
distance beyond the farther fence: `(100 - (-1)) / 2`).  The last
conjunct records that the whole-program path never completes here:
`generateFingerprint` on `c6Data` throws in `calculateTrendStrength`
(the unguarded `ss.rSquared` `TypeError`, the first numeric column
having 5 ≥ 3 values) before reaching the anomaly computation. -/
theorem anomaly_severity_counterexample :
    PatternFingerprintGenerator.getNumericColumns c6Data = ["x"] ∧
    ss.quantileSorted (jsSortAsc (columnValues c6Data "x")) 0.25 = 2 ∧
    ss.quantileSorted (jsSortAsc (columnValues c6Data "x")) 0.75 = 4 ∧
    (PatternFingerprintGenerator.generateAnomalyFingerprint trivExt c6Data
        ["x"]).outlier_positions = [4] ∧
    (PatternFingerprintGenerator.generateAnomalyFingerprint trivExt c6Data
        ["x"]).outlier_severity = [50.5] ∧
    ((100 : ℝ) - (4 + 1.5 * (4 - 2))) / (4 - 2) = 46.5 ∧
    (50.5 : ℝ) ≠ 46.5 ∧
    PatternFingerprintGenerator.generateFingerprint trivExt c6Data [] "conn" 0 0 = none := by
  refine ⟨rfl, ?_, ?_, c6_anomaly_eval.1, c6_anomaly_eval.2, by norm_num, by norm_num, rfl⟩
  · rw [c6_columnValues, c6_sorted]
    exact c6_q1
  · rw [c6_columnValues, c6_sorted]
    exact c6_q3

/-- Witness for the amended C6 at the concrete dataset `c6Data`:
the outlier pair `(4, 50.5)` satisfies the amended severity law,
`50.5 = (100 - 7) / 2 + 4`. -/
theorem anomaly_severity_offset_by_four_witness :
    ∃ v, (columnValues c6Data "x")[((4 : ℕ), (50.5 : ℝ)).1]? = some v ∧
      (v < ss.quantileSorted (jsSortAsc (columnValues c6Data "x")) 0.25 -
          1.5 * (ss.quantileSorted (jsSortAsc (columnValues c6Data "x")) 0.75 -
            ss.quantileSorted (jsSortAsc (columnValues c6Data "x")) 0.25) ∨
       v > ss.quantileSorted (jsSortAsc (columnValues c6Data "x")) 0.75 +
          1.5 * (ss.quantileSorted (jsSortAsc (columnValues c6Data "x")) 0.75 -
            ss.quantileSorted (jsSortAsc (columnValues c6Data "x")) 0.25)) ∧
      ((4 : ℕ), (50.5 : ℝ)).2 =
        (if v < ss.quantileSorted (jsSortAsc (columnValues c6Data "x")) 0.25 -
            1.5 * (ss.quantileSorted (jsSortAsc (columnValues c6Data "x")) 0.75 -
              ss.quantileSorted (jsSortAsc (columnValues c6Data "x")) 0.25)
          then ss.quantileSorted (jsSortAsc (columnValues c6Data "x")) 0.25 -
            1.5 * (ss.quantileSorted (jsSortAsc (columnValues c6Data "x")) 0.75 -
              ss.quantileSorted (jsSortAsc (columnValues c6Data "x")) 0.25) - v
          else v - (ss.quantileSorted (jsSortAsc (columnValues c6Data "x")) 0.75 +
            1.5 * (ss.quantileSorted (jsSortAsc (columnValues c6Data "x")) 0.75 -
              ss.quantileSorted (jsSortAsc (columnValues c6Data "x")) 0.25))) /
          (ss.quantileSorted (jsSortAsc (columnValues c6Data "x")) 0.75 -
            ss.quantileSorted (jsSortAsc (columnValues c6Data "x")) 0.25) + 4 := by
  apply anomaly_severity_offset_by_four trivExt c6Data "x" []
  · rw [c6_columnValues, c6_sorted, c6_q1, c6_q3]
    norm_num
  · rw [c6_anomaly_eval.1, c6_anomaly_eval.2]
    simp

end DataViz

/-! ## The similarity engine (`PatternSimilarityEngine.ts`) -/

noncomputable section

open Classical

namespace DataViz

/-- The `characteristics` record of a `PatternCluster` (lines 16–21). -/
structure ClusterCharacteristics where
  dominant_patterns : List String
  avg_confidence : ℝ
  size : ℕ
  variance : ℝ

/-- `PatternCluster` (lines 12–22). -/
structure PatternCluster where
  id : String
  centroid : PatternFingerprint
  members : List PatternFingerprint
  characteristics : ClusterCharacteristics

/-- JS keyed read `m[k]` / `map.get(k)` with a default for the absent
case (at the call sites below the key is always present, or the source
supplies the default itself, as in `(get(k) || 0)`). -/
def mapGetD {α : Type} (m : List (String × α)) (k : String) (d : α) : α :=
  ((m.find? fun p => p.1 == k).map (·.2)).getD d

namespace PatternSimilarityEngine

/-- The `storedFingerprints : Map<string, PatternFingerprint>` of one
engine instance, as an insertion-ordered association list. -/
abbrev Store := List (String × PatternFingerprint)

/-- `calculateAvgConfidence` (lines 307–311). -/
def calculateAvgConfidence (fingerprint : PatternFingerprint) : ℝ :=
  let confidences := fingerprint.confidence_scores.map Prod.snd
  if confidences.length > 0 then confidences.sum / confidences.length else 0.5

/-- `calculateClusterCharacteristics` (lines 313–349).  (`vec[i]` /
`avgVector[i]` on a shorter-than-centroid vector is JS `undefined`,
poisoning the JS variance to `NaN`; the model reads `0` there — the
claims below observe only the cluster structure, not this value.) -/
def calculateClusterCharacteristics (members : List PatternFingerprint) :
    ClusterCharacteristics :=
  let allPatterns := members.flatMap (·.pattern_types)
  let patternCounts := allPatterns.foldl
    (fun counts pattern => mapSet counts pattern (mapGetD counts pattern 0 + 1))
    ([] : List (String × ℕ))
  let dominant_patterns :=
    ((patternCounts.mergeSort fun a b => decide (b.2 ≤ a.2)).take 3).map Prod.fst
  let avg_confidence := (members.map fun fp => calculateAvgConfidence fp).sum / members.length
  let vectors := members.map (·.similarity_vector)
  let avgVector := (vectors.headD []).enum.map fun p =>
    (vectors.map fun vec => vec.getD p.1 0).sum / vectors.length
  let variance := (vectors.map fun vec =>
    (vec.enum.map fun p => (p.2 - avgVector.getD p.1 0) ^ 2).sum).sum /
    ((vectors.length : ℝ) * avgVector.length)
  { dominant_patterns := dominant_patterns
    avg_confidence := avg_confidence
    size := members.length
    variance := variance }

/-- The inner `for (const candidate of fingerprints)` loop of
`clusterSimilarPatterns` (lines 149–158): walk the candidate list,
skipping processed ids, absorbing every candidate with similarity ≥
threshold into the cluster and marking it processed. -/
def absorb (threshold : ℝ) (centroid : PatternFingerprint) :
    List PatternFingerprint → List String → List PatternFingerprint × List String
  | [], processed => ([], processed)
  | candidate :: rest, processed =>
      if processed.contains candidate.id then absorb threshold centroid rest processed
      else if PatternFingerprintGenerator.calculateSimilarity centroid candidate ≥ threshold then
        let next := absorb threshold centroid rest (candidate.id :: processed)
        (candidate :: next.1, next.2)
      else absorb threshold centroid rest processed

/-- The outer `for (const fingerprint of fingerprints)` loop of
`clusterSimilarPatterns` (lines 132–164), carrying the shared
`processed` id set; `k` counts the clusters opened so far (the source
draws each opened cluster's id impurely from `Date.now()` and
`Math.random()`, modelled by the parameter `mkClusterId`).  A cluster is
kept only when it absorbed at least one other member. -/
def clusterOuter (mkClusterId : ℕ → String) (threshold : ℝ)
    (fingerprints : List PatternFingerprint) :
    List PatternFingerprint → List String → ℕ → List PatternCluster
  | [], _, _ => []
  | fingerprint :: rest, processed, k =>
      if processed.contains fingerprint.id then
        clusterOuter mkClusterId threshold fingerprints rest processed k
      else
        let next := absorb threshold fingerprint fingerprints (fingerprint.id :: processed)
        let members := fingerprint :: next.1
        if members.length > 1 then
          { id := mkClusterId k
            centroid := fingerprint
            members := members
            characteristics := calculateClusterCharacteristics members } ::
            clusterOuter mkClusterId threshold fingerprints rest next.2 (k + 1)
        else
          clusterOuter mkClusterId threshold fingerprints rest next.2 (k + 1)

/-- `clusterSimilarPatterns` (lines 124–167): single-pass greedy
clustering in insertion order over the stored fingerprints; singleton
clusters are discarded; the survivors are sorted by descending size. -/
def clusterSimilarPatterns (mkClusterId : ℕ → String) (store : Store) (threshold : ℝ) :
    List PatternCluster :=
  let fingerprints := store.map Prod.snd
  if fingerprints.length < 2 then []
  else
    (clusterOuter mkClusterId threshold fingerprints fingerprints [] 0).mergeSort
      fun a b => decide (b.characteristics.size ≤ a.characteristics.size)

/-- `storeFingerprint` (lines 388–390). -/
def storeFingerprint (store : Store) (fingerprint : PatternFingerprint) : Store :=
  mapSet store fingerprint.id fingerprint

/-- `getStoredFingerprints` (lines 392–394). -/
def getStoredFingerprints (store : Store) : List PatternFingerprint :=
  store.map Prod.snd

/-- `exportFingerprints` (lines 400–402): `Object.fromEntries(map)`, the
whole store as a keyed record in insertion order. -/
def exportFingerprints (store : Store) : List (String × PatternFingerprint) :=
  store

/-- `importFingerprints` (lines 404–408): upsert every `(id,
fingerprint)` entry of the record into the store, in iteration order. -/
def importFingerprints (store : Store) (fingerprints : List (String × PatternFingerprint)) :
    Store :=
  fingerprints.foldl (fun acc kv => mapSet acc kv.1 kv.2) store

end PatternSimilarityEngine

theorem mapSet_append_of_not_mem {α : Type} (m : List (String × α)) (k : String) (v : α)
    (h : k ∉ m.map Prod.fst) : mapSet m k v = m ++ [(k, v)] := by
  have hguard : ¬(m.any fun p => p.1 == k) = true := by
    simp only [List.any_eq_true, beq_iff_eq, not_exists, not_and]
    intro p hp hpk
    exact h (hpk ▸ List.mem_map_of_mem Prod.fst hp)
  unfold mapSet
  rw [if_neg hguard]

theorem import_eq_append (l m : List (String × PatternFingerprint))
    (h : ((m ++ l).map Prod.fst).Nodup) :
    PatternSimilarityEngine.importFingerprints m l = m ++ l := by
  induction l generalizing m with
  | nil => simp [PatternSimilarityEngine.importFingerprints]
  | cons kv rest ih =>
      unfold PatternSimilarityEngine.importFingerprints at ih ⊢
      simp only [List.foldl_cons]
      have hk : kv.1 ∉ m.map Prod.fst := by
        simp only [List.map_append, List.map_cons] at h
        intro hmem
        exact (List.disjoint_of_nodup_append h) hmem (by simp)
      rw [mapSet_append_of_not_mem m kv.1 kv.2 hk]
      have h' : (((m ++ [kv]) ++ rest).map Prod.fst).Nodup := by
        simpa using h
      rw [ih (m ++ [kv]) h']
      simp

/-- **C8.**  Round-trip of the store snapshot: for every engine store
`S` (whose keys are distinct, the `Map` invariant),
`importFingerprints(exportFingerprints())` into a fresh (empty) engine
reproduces exactly `S` — the same ids mapped to the same fingerprints —
and importing the exported entries in ANY iteration order produces a
store with exactly the same contents (a permutation of `S`). -/
theorem export_import_roundtrip (store : PatternSimilarityEngine.Store)
    (hnodup : (store.map Prod.fst).Nodup) :
    PatternSimilarityEngine.importFingerprints []
      (PatternSimilarityEngine.exportFingerprints store) = store ∧
    ∀ imported, imported.Perm (PatternSimilarityEngine.exportFingerprints store) →
      (PatternSimilarityEngine.importFingerprints [] imported).Perm store := by
  constructor
  · simpa using import_eq_append store [] (by simpa using hnodup)
  · intro imported hperm
    have hnodup' : (imported.map Prod.fst).Nodup :=
      ((hperm.map Prod.fst).nodup_iff).2 hnodup
    rw [show PatternSimilarityEngine.importFingerprints [] imported = imported by
      simpa using import_eq_append imported [] (by simpa using hnodup')]
    exact hperm

/-- A concrete two-entry store for evaluating the round-trip. -/
def c8Store : PatternSimilarityEngine.Store :=
  [("a", testFingerprint "a" [1]), ("b", testFingerprint "b" [2])]

theorem list_sum_map_eq_range_sum (f : ℝ → ℝ) (xs : List ℝ) :
    (xs.map f).sum = ∑ i in Finset.range xs.length, f (xs.getD i 0) := by
  induction xs with
  | nil => simp
  | cons x xs ih =>
      rw [List.map_cons, List.sum_cons, ih, List.length_cons, Finset.sum_range_succ']
      simp only [List.getD_cons_succ, List.getD_cons_zero]
      ring

theorem list_dot_eq_range_sum (xs ys : List ℝ) (h : xs.length = ys.length) :
    ((xs.zip ys).map fun p => p.1 * p.2).sum =
      ∑ i in Finset.range xs.length, xs.getD i 0 * ys.getD i 0 := by
  induction xs generalizing ys with
  | nil => simp
  | cons x xs ih =>
      cases ys with
      | nil => simp at h
      | cons y ys =>
          rw [List.zip_cons_cons, List.map_cons, List.sum_cons,
            ih ys (by simpa using h), List.length_cons, Finset.sum_range_succ']
          simp only [List.getD_cons_succ, List.getD_cons_zero]
          ring

/-- Cosine similarity never exceeds `1` (Cauchy–Schwarz). -/
theorem calculateSimilarity_le_one (a b : PatternFingerprint) :
    PatternFingerprintGenerator.calculateSimilarity a b ≤ 1 := by
  unfold PatternFingerprintGenerator.calculateSimilarity
  rcases ne_or_eq a.similarity_vector.length b.similarity_vector.length with hl | hl
  · rw [if_pos hl]
    norm_num
  · rw [if_neg (by simp [hl])]
    simp only
    rcases eq_or_ne (Real.sqrt ((a.similarity_vector.map fun v => v * v).sum) *
        Real.sqrt ((b.similarity_vector.map fun v => v * v).sum)) 0 with hd | hd
    · rw [if_pos hd]
      norm_num
    · rw [if_neg hd]
      have hdpos : 0 < Real.sqrt ((a.similarity_vector.map fun v => v * v).sum) *
          Real.sqrt ((b.similarity_vector.map fun v => v * v).sum) :=
        lt_of_le_of_ne (mul_nonneg (Real.sqrt_nonneg _) (Real.sqrt_nonneg _)) (Ne.symm hd)
      rw [div_le_one hdpos]
      have ha' : (∑ i in Finset.range a.similarity_vector.length,
          a.similarity_vector.getD i 0 ^ 2) = (a.similarity_vector.map fun v => v * v).sum := by
        rw [list_sum_map_eq_range_sum (fun v => v * v) a.similarity_vector]
        exact Finset.sum_congr rfl fun i _ => pow_two _
      have hb' : (∑ i in Finset.range a.similarity_vector.length,
          b.similarity_vector.getD i 0 ^ 2) = (b.similarity_vector.map fun v => v * v).sum := by
        rw [list_sum_map_eq_range_sum (fun v => v * v) b.similarity_vector, ← hl]
        exact Finset.sum_congr rfl fun i _ => pow_two _
      calc ((a.similarity_vector.zip b.similarity_vector).map fun p => p.1 * p.2).sum
          = ∑ i in Finset.range a.similarity_vector.length,
              a.similarity_vector.getD i 0 * b.similarity_vector.getD i 0 :=
            list_dot_eq_range_sum _ _ hl
        _ ≤ Real.sqrt (∑ i in Finset.range a.similarity_vector.length,
              a.similarity_vector.getD i 0 ^ 2) *
            Real.sqrt (∑ i in Finset.range a.similarity_vector.length,
              b.similarity_vector.getD i 0 ^ 2) :=
            Real.sum_mul_le_sqrt_mul_sqrt _ _ _
        _ = Real.sqrt ((a.similarity_vector.map fun v => v * v).sum) *
            Real.sqrt ((b.similarity_vector.map fun v => v * v).sum) := by
            rw [ha', hb']

/-- Cosine similarity of entrywise-nonnegative vectors is
nonnegative. -/
theorem calculateSimilarity_nonneg (a b : PatternFingerprint)
    (ha : ∀ v ∈ a.similarity_vector, 0 ≤ v) (hb : ∀ v ∈ b.similarity_vector, 0 ≤ v) :
    0 ≤ PatternFingerprintGenerator.calculateSimilarity a b := by
  unfold PatternFingerprintGenerator.calculateSimilarity
  rcases ne_or_eq a.similarity_vector.length b.similarity_vector.length with hl | hl
  · rw [if_pos hl]
  · rw [if_neg (by simp [hl])]
    simp only
    rcases eq_or_ne (Real.sqrt ((a.similarity_vector.map fun v => v * v).sum) *
        Real.sqrt ((b.similarity_vector.map fun v => v * v).sum)) 0 with hd | hd
    · rw [if_pos hd]
    · rw [if_neg hd]
      apply div_nonneg
      · apply List.sum_nonneg
        intro x hx
        obtain ⟨p, hp, rfl⟩ := List.mem_map.1 hx
        obtain ⟨hp1, hp2⟩ := List.of_mem_zip hp
        exact mul_nonneg (ha _ hp1) (hb _ hp2)
      · exact mul_nonneg (Real.sqrt_nonneg _) (Real.sqrt_nonneg _)

/-- The absorbing loop on a candidate list whose every member is
similar enough, has fresh distinct ids, and none already processed:
everything is absorbed in order. -/
theorem absorb_of_all_similar (t : ℝ) (c : PatternFingerprint)
    (l : List PatternFingerprint) :
    ∀ processed : List String,
    (∀ fp ∈ l, t ≤ PatternFingerprintGenerator.calculateSimilarity c fp) →
    (l.map (·.id)).Nodup →
    (∀ fp ∈ l, fp.id ∉ processed) →
    PatternSimilarityEngine.absorb t c l processed =
      (l, (l.map (·.id)).reverse ++ processed) := by
  induction l with
  | nil =>
      intro processed _ _ _
      simp [PatternSimilarityEngine.absorb]
  | cons cand rest ih =>
      intro processed hsim hnd hfresh
      rw [List.map_cons] at hnd
      have hnd1 := (List.nodup_cons.1 hnd).1
      have hnd2 := (List.nodup_cons.1 hnd).2
      unfold PatternSimilarityEngine.absorb
      rw [if_neg (by simpa using hfresh cand (List.mem_cons_self _ _)),
        if_pos (hsim cand (List.mem_cons_self _ _))]
      rw [ih (cand.id :: processed)
        (fun fp hfp => hsim fp (List.mem_cons_of_mem _ hfp)) hnd2 ?_]
      · simp
      · intro fp hfp
        simp only [List.mem_cons, not_or]
        refine ⟨?_, hfresh fp (List.mem_cons_of_mem _ hfp)⟩
        intro heq
        exact hnd1 (heq ▸ List.mem_map_of_mem (·.id) hfp)

/-- The absorbing loop absorbs nothing when every candidate falls below
the threshold. -/
theorem absorb_of_none_similar (t : ℝ) (c : PatternFingerprint)
    (l : List PatternFingerprint) :
    ∀ processed : List String,
    (∀ fp ∈ l, PatternFingerprintGenerator.calculateSimilarity c fp < t) →
    PatternSimilarityEngine.absorb t c l processed = ([], processed) := by
  induction l with
  | nil =>
      intro processed _
      simp [PatternSimilarityEngine.absorb]
  | cons cand rest ih =>
      intro processed hsim
      unfold PatternSimilarityEngine.absorb
      by_cases hc : (processed.contains cand.id) = true
      · rw [if_pos hc]
        exact ih processed fun fp hfp => hsim fp (List.mem_cons_of_mem _ hfp)
      · rw [if_neg hc, if_neg (not_le.2 (hsim cand (List.mem_cons_self _ _)))]
        exact ih processed fun fp hfp => hsim fp (List.mem_cons_of_mem _ hfp)

/-- The outer cluster loop yields nothing once every remaining
fingerprint is already processed. -/
theorem clusterOuter_all_processed (mkClusterId : ℕ → String) (t : ℝ)
    (full : List PatternFingerprint) (l : List PatternFingerprint) :
    ∀ (processed : List String) (k : ℕ), (∀ fp ∈ l, fp.id ∈ processed) →
    PatternSimilarityEngine.clusterOuter mkClusterId t full l processed k = [] := by
  induction l with
  | nil =>
      intro processed k _
      rfl
  | cons fp rest ih =>
      intro processed k hall
      unfold PatternSimilarityEngine.clusterOuter
      rw [if_pos (by simpa using hall fp (List.mem_cons_self _ _))]
      exact ih processed k fun f hf => hall f (List.mem_cons_of_mem _ hf)

/-- With every pairwise similarity strictly below the threshold, every
opened cluster stays a singleton and is discarded. -/
theorem clusterOuter_high_threshold (mkClusterId : ℕ → String) (t : ℝ)
    (full : List PatternFingerprint)
    (hsim : ∀ c fp, PatternFingerprintGenerator.calculateSimilarity c fp < t)
    (l : List PatternFingerprint) :
    ∀ (processed : List String) (k : ℕ),
    PatternSimilarityEngine.clusterOuter mkClusterId t full l processed k = [] := by
  induction l with
  | nil =>
      intro processed k
      rfl
  | cons fp rest ih =>
      intro processed k
      unfold PatternSimilarityEngine.clusterOuter
      by_cases hc : (processed.contains fp.id) = true
      · rw [if_pos hc]
        exact ih processed k
      · rw [if_neg hc]
        rw [absorb_of_none_similar t fp full (fp.id :: processed) fun f _ => hsim fp f]
        simp only [List.length_cons, List.length_nil]
        rw [if_neg (by norm_num)]
        exact ih _ _

/-- **C7, amended.**  `clusterSimilarPatterns(threshold)` returns zero
clusters for any threshold strictly greater than 1, regardless of the
store contents (cosine similarity never exceeds 1).  With threshold 0,
at least 2 stored fingerprints, entrywise-NONNEGATIVE similarity
vectors (true of every fingerprint produced by `generateFingerprint`,
but not of arbitrary imported store contents — see the counterexample)
and pairwise-distinct fingerprint ids (the `Map` invariant), it returns
exactly one cluster whose members are all stored fingerprints. -/
theorem cluster_threshold_extremes (mkClusterId : ℕ → String)
    (store : PatternSimilarityEngine.Store) (t : ℝ) :
    (1 < t → PatternSimilarityEngine.clusterSimilarPatterns mkClusterId store t = []) ∧
    (2 ≤ store.length →
      (∀ p ∈ store, ∀ v ∈ p.2.similarity_vector, 0 ≤ v) →
      (store.map fun p => p.2.id).Nodup →
      ∃ c, PatternSimilarityEngine.clusterSimilarPatterns mkClusterId store 0 = [c] ∧
        c.members = store.map Prod.snd) := by
  constructor
  · intro ht
    simp only [PatternSimilarityEngine.clusterSimilarPatterns]
    by_cases hlen : (store.map Prod.snd).length < 2
    · rw [if_pos hlen]
    · rw [if_neg hlen]
      rw [clusterOuter_high_threshold mkClusterId t _
        (fun c fp => lt_of_le_of_lt (calculateSimilarity_le_one c fp) ht) _ _ _]
      exact List.mergeSort_nil
  · intro hlen hnn hnd
    have hnn' : ∀ fp ∈ store.map Prod.snd, ∀ v ∈ fp.similarity_vector, 0 ≤ v := by
      intro fp hfp
      obtain ⟨p, hp, rfl⟩ := List.mem_map.1 hfp
      exact hnn p hp
    have hndids : ((store.map Prod.snd).map (·.id)).Nodup := by
      rw [List.map_map]
      exact hnd
    have hlen' : ¬(store.map Prod.snd).length < 2 := by
      rw [List.length_map]
      omega
    simp only [PatternSimilarityEngine.clusterSimilarPatterns]
    rw [if_neg hlen']
    obtain ⟨fp1, rest, hfps⟩ : ∃ fp1 rest, store.map Prod.snd = fp1 :: rest := by
      cases hv : store.map Prod.snd with
      | nil => rw [hv] at hlen'; simp at hlen'
      | cons a l => exact ⟨a, l, rfl⟩
    rw [hfps] at hnn' hndids hlen' ⊢
    rw [List.map_cons] at hndids
    have hnd1 := (List.nodup_cons.1 hndids).1
    have hnd2 := (List.nodup_cons.1 hndids).2
    have habs : PatternSimilarityEngine.absorb 0 fp1 (fp1 :: rest) [fp1.id] =
        (rest, (rest.map (·.id)).reverse ++ [fp1.id]) := by
      unfold PatternSimilarityEngine.absorb
      rw [if_pos (by simp)]
      exact absorb_of_all_similar 0 fp1 rest [fp1.id]
        (fun fp hfp => calculateSimilarity_nonneg fp1 fp
          (hnn' fp1 (List.mem_cons_self _ _))
          (hnn' fp (List.mem_cons_of_mem _ hfp)))
        hnd2
        (fun fp hfp => by
          simp only [List.mem_singleton]
          intro heq
          exact hnd1 (heq ▸ List.mem_map_of_mem (·.id) hfp))
    unfold PatternSimilarityEngine.clusterOuter
    rw [if_neg (by simp), habs]
    simp only
    rw [if_pos (show (fp1 :: rest).length > 1 by
      simp only [List.length_cons] at hlen' ⊢
      omega)]
    rw [clusterOuter_all_processed mkClusterId 0 (fp1 :: rest) rest
      ((rest.map (·.id)).reverse ++ [fp1.id]) 1
      (fun fp hfp =>
        List.mem_append_left _ (List.mem_reverse.2 (List.mem_map_of_mem (·.id) hfp)))]
    rw [List.mergeSort_of_sorted (List.pairwise_singleton _ _)]
    exact ⟨_, rfl, rfl⟩

/-- A fixed cluster-id generator (the source draws cluster ids from
`Date.now()` and `Math.random()`). -/
def mkCl : ℕ → String := fun _ => "cluster"

/-- Two stored fingerprints with nonnegative unit vectors: similarity
1. -/
def c7Store : PatternSimilarityEngine.Store :=
  [("a", testFingerprint "a" [1]), ("b", testFingerprint "b" [1])]

/-- Two stored fingerprints with OPPOSITE unit vectors: similarity
`-1 < 0`. -/
def c7NegStore : PatternSimilarityEngine.Store :=
  [("a", testFingerprint "a" [1]), ("b", testFingerprint "b" [-1])]

theorem c7_sim_eval :
    PatternFingerprintGenerator.calculateSimilarity
      (testFingerprint "a" [1]) (testFingerprint "b" [-1]) = -1 := by
  unfold PatternFingerprintGenerator.calculateSimilarity
  rw [if_neg (by simp [testFingerprint])]
  simp only [testFingerprint]
  norm_num [Real.sqrt_one]

/-- **C7, counterexample.**  With threshold 0 and the two stored
fingerprints of `c7NegStore` (similarity vectors `[1]` and `[-1]`,
pairwise similarity `-1 < 0`), `clusterSimilarPatterns` returns ZERO
clusters, not one cluster containing both: the claim's threshold-0 half
is false for arbitrary store contents. -/
theorem cluster_zero_threshold_counterexample :
    c7NegStore.length = 2 ∧
    PatternSimilarityEngine.clusterSimilarPatterns mkCl c7NegStore 0 = [] := by
  refine ⟨rfl, ?_⟩
  have hida : (testFingerprint "a" [1]).id = "a" := rfl
  have hidb : (testFingerprint "b" [-1]).id = "b" := rfl
  have hsimneg : ¬(PatternFingerprintGenerator.calculateSimilarity
      (testFingerprint "a" [1]) (testFingerprint "b" [-1]) ≥ 0) := by
    rw [c7_sim_eval]
    norm_num
  simp only [PatternSimilarityEngine.clusterSimilarPatterns, c7NegStore, List.map_cons,
    List.map_nil]
  rw [if_neg (by norm_num)]
  have habs1 : PatternSimilarityEngine.absorb 0 (testFingerprint "a" [1])
      [testFingerprint "a" [1], testFingerprint "b" [-1]] ["a"] = ([], ["a"]) := by
    unfold PatternSimilarityEngine.absorb
    rw [if_pos (by rw [hida]; decide)]
    unfold PatternSimilarityEngine.absorb
    rw [if_neg (by rw [hidb]; decide), if_neg hsimneg]
    rfl
  have habs2 : PatternSimilarityEngine.absorb 0 (testFingerprint "b" [-1])
      [testFingerprint "a" [1], testFingerprint "b" [-1]] ["b", "a"] = ([], ["b", "a"]) := by
    unfold PatternSimilarityEngine.absorb
    rw [if_pos (by rw [hida]; decide)]
    unfold PatternSimilarityEngine.absorb
    rw [if_pos (by rw [hidb]; decide)]
    rfl
  unfold PatternSimilarityEngine.clusterOuter
  rw [if_neg (by rw [hida]; decide), hida, habs1]
  simp only
  rw [if_neg (by norm_num)]
  unfold PatternSimilarityEngine.clusterOuter
  rw [if_neg (by rw [hidb]; decide), hidb, habs2]
  simp only
  rw [if_neg (by norm_num)]
  rw [show PatternSimilarityEngine.clusterOuter mkCl 0
    [testFingerprint "a" [1], testFingerprint "b" [-1]] [] ["b", "a"] (0 + 1 + 1) = [] from rfl]
  exact List.mergeSort_nil

/-- Witness for the amended C7 at the concrete store `c7Store` (both
fingerprints with nonnegative vector `[1]`, distinct ids, thresholds
`1.1` and `0`). -/
theorem cluster_threshold_extremes_witness :
    PatternSimilarityEngine.clusterSimilarPatterns mkCl c7Store 1.1 = [] ∧
    ∃ c, PatternSimilarityEngine.clusterSimilarPatterns mkCl c7Store 0 = [c] ∧
      c.members = c7Store.map Prod.snd :=
  ⟨(cluster_threshold_extremes mkCl c7Store 1.1).1 (by norm_num),
   (cluster_threshold_extremes mkCl c7Store 0).2 (by simp [c7Store])
     (by
       intro p hp v hv
       simp only [c7Store, List.mem_cons, List.not_mem_nil, or_false] at hp
       rcases hp with rfl | rfl <;>
         · simp only [testFingerprint, List.mem_singleton] at hv
           subst hv
           norm_num)
     (by
       show ([("a", testFingerprint "a" [1]), ("b", testFingerprint "b" [1])].map
         fun p => p.2.id).Nodup
       simp [testFingerprint])⟩

/-- Witness for C8 at the concrete two-entry store `c8Store`. -/
theorem export_import_roundtrip_witness :
    PatternSimilarityEngine.importFingerprints []
      (PatternSimilarityEngine.exportFingerprints c8Store) = c8Store ∧
    (PatternSimilarityEngine.importFingerprints []
      (PatternSimilarityEngine.exportFingerprints c8Store)).Perm c8Store :=
  ⟨(export_import_roundtrip c8Store (by simp [c8Store])).1,
   (export_import_roundtrip c8Store (by simp [c8Store])).2 _ (List.Perm.refl _)⟩

end DataViz

end

/-! ## The baseline pattern detector (`PatternDetector.ts`) -/

noncomputable section

open Classical

namespace DataViz.PatternDetector

open DataViz

/-- `detectTrends` (PatternDetector.ts, lines 778–809): per numeric
column, linear regression of value against row index, inside a
`try`/`catch` that skips the column when a library call throws.  With
2 or more records the `ss.rSquared` call — passed the `{m, b}`
regression record where the library expects a callable — raises
`TypeError`, so the `catch` fires (`none` ↦ skip); with fewer records
R² is `1` but the slope is `0` (JS: `0` for one record, `NaN` for
none), failing `|slope| > 0.1`.  So no trend pattern is ever emitted
(`detectTrends_eq_nil` below). -/
def detectTrends (data : List DataPoint) (numericColumns : List String) : List DataPattern :=
  numericColumns.flatMap fun column =>
    let values := columnValues data column
    let pts := values.enum.map fun p => ((p.1 : ℝ), p.2)
    let regression := ss.linearRegression pts
    let slope := regression.1
    match ss.rSquared pts regression with
    | none => []
    | some rSquared =>
        if |slope| > 0.1 ∧ rSquared > 0.5 then
          [{ type := "trend"
             confidence := rSquared
             description := (if slope > 0 then "Increasing" else "Decreasing") ++
               " trend in " ++ column
             parameters := [("slope", Json.num slope), ("rSquared", Json.num rSquared),
               ("direction", Json.str (if slope > 0 then "increasing" else "decreasing"))]
             affectedColumns := [column] }]
        else []

/-- `detectTrends` never emits a pattern: for 2 or more records the
`catch` always fires (the `ss.rSquared` `TypeError`), and for fewer
the slope is `0`, failing `|slope| > 0.1`. -/
theorem detectTrends_eq_nil (data : List DataPoint) (numericColumns : List String) :
    detectTrends data numericColumns = [] := by
  unfold detectTrends
  induction numericColumns with
  | nil => rfl
  | cons column cols ih =>
      rw [List.flatMap_cons, ih, List.append_nil]
      rcases hv : columnValues data column with - | ⟨v, - | ⟨w, vs⟩⟩
      · simp [hv, ss.rSquared, ss.linearRegression]
        norm_num
      · simp [hv, ss.rSquared, ss.linearRegression]
        norm_num
      · simp [hv, ss.rSquared, (show ¬(vs.length + 1 + 1 < 2) by omega)]

/-- `detectAnomalies` (lines 811–845): 2σ z-score outliers per numeric
column. -/
def detectAnomalies (data : List DataPoint) (numericColumns : List String) :
    List DataPattern :=
  numericColumns.flatMap fun column =>
    let values := columnValues data column
    let mean := ss.mean values
    let stdDev := ss.standardDeviation values
    let threshold : ℝ := 2
    let anomalies := data.filter fun point =>
      cdecide (|numAt point column - mean| > threshold * stdDev)
    if anomalies.length > 0 then
      let confidence := min 0.9 ((anomalies.length : ℝ) / data.length * 5)
      [{ type := "anomaly"
         confidence := confidence
         description := toString anomalies.length ++ " anomalous values detected in " ++ column
         parameters := [("count", Json.num anomalies.length),
           ("percentage", Json.num ((anomalies.length : ℝ) / data.length * 100)),
           ("threshold", Json.num threshold), ("mean", Json.num mean),
           ("stdDev", Json.num stdDev)]
         affectedColumns := [column] }]
    else []

/-- `detectCorrelations` (lines 847–883): pairwise Pearson r over
column pairs `i < j`; the `try`/`catch` skips the pair when the library
throws (fewer than two records). -/
def detectCorrelations (data : List DataPoint) (numericColumns : List String) :
    List DataPattern :=
  if numericColumns.length < 2 then []
  else
    (List.range numericColumns.length).flatMap fun i =>
      ((List.range numericColumns.length).filter fun j => decide (i < j)).flatMap fun j =>
        let col1 := numericColumns.getD i ""
        let col2 := numericColumns.getD j ""
        let values1 := columnValues data col1
        let values2 := columnValues data col2
        match ss.sampleCorrelationOpt values1 values2 with
        | none => []
        | some correlation =>
            if |correlation| > 0.7 then
              [{ type := "correlation"
                 confidence := |correlation|
                 description := (if correlation > 0 then "Positive" else "Negative") ++
                   " correlation between " ++ col1 ++ " and " ++ col2
                 parameters := [("correlation", Json.num correlation),
                   ("strength", Json.str (if |correlation| > 0.9 then "very strong" else "strong")),
                   ("direction", Json.str (if correlation > 0 then "positive" else "negative"))]
                 affectedColumns := [col1, col2] }]
            else []

/-- `createMatrix` (lines 943–947). -/
def createMatrix (data : List DataPoint) (columns : List String) : List (List ℝ) :=
  data.map fun point => columns.map fun col => numAt point col

/-- `euclideanDistance` (lines 1013–1015); iterates over the indices of
the first vector (a shorter second vector would give JS `NaN`; all call
sites pass equal dimensions). -/
def euclideanDistance (a b : List ℝ) : ℝ :=
  Real.sqrt ((a.enum.map fun p => (p.2 - b.getD p.1 0) ^ 2).sum)

/-- The argmin-by-distance inner loop of `kMeansClustering`
(lines 974–990): `minDist` starts at `Infinity`, strict improvement,
first centroid wins ties. -/
def closestCentroid (centroids : List (List ℝ)) (x : List ℝ) : ℕ :=
  (centroids.enum.foldl
    (fun (acc : Option (ℝ × ℕ)) c =>
      let dist := euclideanDistance x c.2
      match acc with
      | none => some (dist, c.1)
      | some md => if dist < md.1 then some (dist, c.1) else some md)
    none).elim 0 Prod.snd

/-- The centroid-update pass of `kMeansClustering` (lines 992–1000):
each centroid moves to the mean of its assigned points, or stays put
when no point is assigned. -/
def updateCentroids (data : List (List ℝ)) (d k : ℕ) (assignments : List ℕ)
    (centroids : List (List ℝ)) : List (List ℝ) :=
  (List.range k).map fun j =>
    let clusterPoints := (data.zip assignments).filterMap fun p =>
      if p.2 = j then some p.1 else none
    if clusterPoints.length > 0 then
      (List.range d).map fun dim => ss.mean (clusterPoints.map fun p => p.getD dim 0)
    else centroids.getD j []

/-- The `while (changed && iterations < 100)` loop of
`kMeansClustering`: each iteration reassigns every point and then
updates the centroids (also on the final, unchanged iteration). -/
def kMeansLoop (data : List (List ℝ)) (d k : ℕ) :
    ℕ → List (List ℝ) → List ℕ → List (List ℝ) × List ℕ
  | 0, centroids, assignments => (centroids, assignments)
  | fuel + 1, centroids, assignments =>
      let newAssignments := data.map (closestCentroid centroids)
      let newCentroids := updateCentroids data d k newAssignments centroids
      if newAssignments = assignments then (newCentroids, newAssignments)
      else kMeansLoop data d k fuel newCentroids newAssignments

/-- `calculateSilhouetteScore` (lines 1017–1039), the 3-argument
baseline version against centroids.  (`minB` starts at `Infinity`; with
`k = 3` centroids the candidate list is never empty at the call
site.) -/
def calculateSilhouetteScore (data : List (List ℝ)) (assignments : List ℕ)
    (centroids : List (List ℝ)) : ℝ :=
  let totalScore := (data.enum.map fun p =>
    let clusterIndex := assignments.getD p.1 0
    let a := euclideanDistance p.2 (centroids.getD clusterIndex [])
    let candidates := (centroids.enum.filter fun c => decide (c.1 ≠ clusterIndex)).map
      fun c => euclideanDistance p.2 c.2
    let minB := jsMin1 candidates
    (minB - a) / max a minB).sum
  max 0 (totalScore / data.length)

/-- `kMeansClustering` (lines 949–1011), returning
`(k, silhouetteScore, clusterSizes)`.  The impure centroid
initialization `Math.floor(Math.random() * n)` is the explicit
`randoms` argument (i-th draw, reduced mod n). -/
def kMeansClustering (randoms : ℕ → ℕ) (data : List (List ℝ)) (k : ℕ) :
    ℕ × ℝ × List ℕ :=
  let n := data.length
  let centroids := (List.range k).map fun i => data.getD (randoms i % n) []
  let res := kMeansLoop data (data.headD []).length k 100 centroids (List.replicate n 0)
  let clusterSizes := (List.range k).map fun j => (res.2.filter fun a => a == j).length
  (k, calculateSilhouetteScore data res.2 res.1, clusterSizes)

/-- `detectClusters` (lines 885–913): fixed `k = 3` k-means when there
are at least 2 numeric columns and 10 records. -/
def detectClusters (randoms : ℕ → ℕ) (data : List DataPoint)
    (numericColumns : List String) : List DataPattern :=
  if numericColumns.length < 2 ∨ data.length < 10 then []
  else
    let matrix := createMatrix data numericColumns
    let clusters := kMeansClustering randoms matrix 3
    if clusters.2.1 > 0.5 then
      [{ type := "cluster"
         confidence := clusters.2.1
         description := toString clusters.1 ++ " distinct clusters found in the data"
         parameters := [("k", Json.num clusters.1),
           ("silhouetteScore", Json.num clusters.2.1),
           ("clusterSizes", Json.arr (clusters.2.2.map fun s => Json.num s))]
         affectedColumns := numericColumns }]
    else []

/-- `autocorrelation` (lines 1066–1078), the baseline detector's own
copy (same value as the fingerprint generator's). -/
def autocorrelation (values : List ℝ) (lag : ℕ) : ℝ :=
  let n := values.length
  if lag ≥ n then 0
  else
    let mean := ss.mean values
    let numerator := ((values.take (n - lag)).enum.map fun p =>
      (p.2 - mean) * (values.getD (p.1 + lag) 0 - mean)).sum
    let denominator := (values.map fun val => (val - mean) ^ 2).sum
    if denominator = 0 then 0 else numerator / denominator

/-- `detectSeasonalityInSeries` (lines 1041–1064), returning
`(confidence, period, amplitude)`: best RAW (not absolute)
autocorrelation over periods `2 .. min(⌊n/4⌋, 50)`. -/
def detectSeasonalityInSeries (values : List ℝ) : ℝ × ℕ × ℝ :=
  let maxPeriod := min (values.length / 4) 50
  let best := ((List.range (maxPeriod + 1)).filter fun p => decide (2 ≤ p)).foldl
    (fun (acc : ℝ × ℕ) period =>
      let correlation := autocorrelation values period
      if correlation > acc.1 then (correlation, period) else acc)
    ((0 : ℝ), (0 : ℕ))
  (best.1, best.2, ss.standardDeviation values)

/-- `detectSeasonality` (lines 915–941): needs at least 50 records. -/
def detectSeasonality (data : List DataPoint) (numericColumns : List String) :
    List DataPattern :=
  if data.length < 50 then []
  else
    numericColumns.flatMap fun column =>
      let values := columnValues data column
      let seasonality := detectSeasonalityInSeries values
      if seasonality.1 > 0.6 then
        [{ type := "seasonal"
           confidence := seasonality.1
           description := "Seasonal pattern detected in " ++ column ++ " with period " ++
             toString seasonality.2.1
           parameters := [("period", Json.num seasonality.2.1),
             ("amplitude", Json.num seasonality.2.2)]
           affectedColumns := [column] }]
      else []

/-- `detectPatterns` (lines 751–765): the five baseline detectors, then
a sort by descending confidence. -/
def detectPatterns (randoms : ℕ → ℕ) (data : List DataPoint) : List DataPattern :=
  if data.length = 0 then []
  else
    let numericColumns := getNumericColumns data
    (detectTrends data numericColumns ++
     detectAnomalies data numericColumns ++
     detectCorrelations data numericColumns ++
     detectClusters randoms data numericColumns ++
     detectSeasonality data numericColumns).mergeSort
      fun a b => cdecide (b.confidence ≤ a.confidence)

end DataViz.PatternDetector

end

/-! ## The advanced pattern detector (`AdvancedPatternDetector.ts`) -/

noncomputable section

open Classical

namespace DataViz.AdvancedPatternDetector

open DataViz

/-- The `metadata` record of an `AdvancedPattern` (lines 9–15);
`confidence_interval` is never set by the code and is omitted. -/
structure PatternMetadata where
  sample_size : ℕ
  test_statistic : Option ℝ := none
  p_value : Option ℝ := none
  algorithm_params : Option (List (String × Json)) := none

/-- `AdvancedPattern extends DataPattern` (lines 5–16). -/
structure AdvancedPattern where
  type : String
  confidence : ℝ
  description : String
  parameters : List (String × Json)
  affectedColumns : List String
  algorithm : String
  statistical_significance : ℝ
  effect_size : ℝ
  metadata : PatternMetadata

/-- `getNumericColumns` (lines 1139–1148), the advanced detector's own
textually identical copy (it also overrides the base-class method the
inherited baseline detectors dispatch to). -/
def getNumericColumns (data : List DataPoint) : List String :=
  match data with
  | [] => []
  | firstRow :: _ =>
      (objectKeys firstRow.values).filter fun key =>
        data.all fun point => isNumberNotNaN (getValue point.values key)

/-- `getAlgorithmForPatternType` (lines 1015–1025). -/
def getAlgorithmForPatternType (t : String) : String :=
  if t = "trend" then "linear_regression"
  else if t = "seasonal" then "autocorrelation_analysis"
  else if t = "correlation" then "pearson_correlation"
  else if t = "cluster" then "k_means_clustering"
  else if t = "anomaly" then "statistical_outlier_detection"
  else "unknown"

/-- `calculateStatisticalSignificance` (lines 1027–1036). -/
def calculateStatisticalSignificance (pattern : DataPattern) (data : List DataPoint) : ℝ :=
  max 0 (min 1 (pattern.confidence * min 1 (Real.sqrt ((data.length : ℝ) / 30))))

/-- Numeric read of a parameter-bag entry (`parameters.k`), `none` for a
missing or non-numeric entry (JS `undefined`). -/
def paramNum (params : List (String × Json)) (k : String) : Option ℝ :=
  (params.find? fun p => p.1 == k).bind fun p =>
    match p.2 with
    | Json.num x => some x
    | _ => none

/-- `calculateEffectSize` (lines 1038–1050); the `||` fallbacks follow
JS truthiness (a missing entry or the number `0` falls through). -/
def calculateEffectSize (pattern : DataPattern) (data : List DataPoint) : ℝ :=
  if pattern.type = "trend" then
    |(match paramNum pattern.parameters "slope" with
      | some x => if x = 0 then 0 else x
      | none => 0)| / 10
  else if pattern.type = "correlation" then
    |(match paramNum pattern.parameters "correlation" with
      | some x => if x = 0 then pattern.confidence else x
      | none => pattern.confidence)|
  else if pattern.type = "anomaly" then
    (match paramNum pattern.parameters "count" with
      | some x => if x = 0 then 0 else x
      | none => 0) / data.length
  else pattern.confidence

/-- `enhancePattern` (lines 65–76). -/
def enhancePattern (basePattern : DataPattern) (data : List DataPoint) : AdvancedPattern :=
  { type := basePattern.type
    confidence := basePattern.confidence
    description := basePattern.description
    parameters := basePattern.parameters
    affectedColumns := basePattern.affectedColumns
    algorithm := getAlgorithmForPatternType basePattern.type
    statistical_significance := calculateStatisticalSignificance basePattern data
    effect_size := calculateEffectSize basePattern data
    metadata :=
      { sample_size := data.length
        algorithm_params := some basePattern.parameters } }

/-- `calculateSkewness` (lines 1075–1082), the advanced detector's own
copy. -/
def calculateSkewness (values : List ℝ) (mean std : ℝ) : ℝ :=
  if std = 0 then 0
  else
    let n : ℝ := values.length
    (n / ((n - 1) * (n - 2))) * (values.map fun val => ((val - mean) / std) ^ 3).sum

/-- `calculateKurtosis` (lines 1084–1092), the advanced detector's own
copy. -/
def calculateKurtosis (values : List ℝ) (mean std : ℝ) : ℝ :=
  if std = 0 then 0
  else
    let n : ℝ := values.length
    (n * (n + 1)) / ((n - 1) * (n - 2) * (n - 3)) *
        (values.map fun val => ((val - mean) / std) ^ 4).sum -
      3 * (n - 1) * (n - 1) / ((n - 2) * (n - 3))

/-- The result of `analyzeDistribution` (lines 18–27, 475–518); the
`parameters` record is flattened into the four moment fields and the
two normality-test approximations are inlined. -/
structure DistributionAnalysis where
  dtype : String
  mean : ℝ
  std : ℝ
  skewness : ℝ
  kurtosis : ℝ
  goodness_of_fit : ℝ
  shapiro_wilk : ℝ
  kolmogorov_smirnov : ℝ

/-- `analyzeDistribution` (lines 475–518). -/
def analyzeDistribution (values : List ℝ) : DistributionAnalysis :=
  let mean := ss.mean values
  let std := ss.standardDeviation values
  let skewness := calculateSkewness values mean std
  let kurtosis := calculateKurtosis values mean std
  let tg : String × ℝ :=
    if |skewness| < 0.5 ∧ |kurtosis| < 1 then ("normal", 1 - (|skewness| + |kurtosis|) / 2)
    else if skewness > 1.5 then ("exponential", min 1 (skewness / 3))
    else if |skewness| < 0.3 ∧ |kurtosis + 1.2| < 0.5 then ("uniform", 1 - |kurtosis + 1.2|)
    else if kurtosis < -1 then ("bimodal", max 0 (1 + kurtosis))
    else if |skewness| > 1 then ("skewed", min 1 (|skewness| / 3))
    else if kurtosis > 3 then ("heavy_tailed", min 1 (kurtosis / 10))
    else ("normal", 0.5)
  { dtype := tg.1
    mean := mean
    std := std
    skewness := skewness
    kurtosis := kurtosis
    goodness_of_fit := max 0 (min 1 tg.2)
    shapiro_wilk := max 0 (1 - (|skewness| + |kurtosis|) / 4)
    kolmogorov_smirnov := max 0 (1 - |skewness| / 2) }

/-- `calculateNormalitySignificance` (lines 1052–1054):
`Math.max(...Object.values(tests))` over the two tests. -/
def calculateNormalitySignificance (analysis : DistributionAnalysis) : ℝ :=
  max analysis.shapiro_wilk analysis.kolmogorov_smirnov

/-- `detectDistributionPatterns` (lines 78–111). -/
def detectDistributionPatterns (data : List DataPoint) (numericColumns : List String) :
    List AdvancedPattern :=
  numericColumns.flatMap fun column =>
    let values := columnValues data column
    let analysis := analyzeDistribution values
    if analysis.goodness_of_fit > 0.7 then
      [{ type := "distribution"
         confidence := analysis.goodness_of_fit
         description := column ++ " follows a " ++ analysis.dtype ++ " distribution"
         parameters := [("distribution_type", Json.str analysis.dtype),
           ("parameters", Json.obj [("mean", Json.num analysis.mean),
             ("std", Json.num analysis.std), ("skewness", Json.num analysis.skewness),
             ("kurtosis", Json.num analysis.kurtosis)]),
           ("goodness_of_fit", Json.num analysis.goodness_of_fit)]
         affectedColumns := [column]
         algorithm := "distribution_fitting"
         statistical_significance := calculateNormalitySignificance analysis
         effect_size := analysis.goodness_of_fit
         metadata :=
           { sample_size := values.length
             algorithm_params := some [("mean", Json.num analysis.mean),
               ("std", Json.num analysis.std), ("skewness", Json.num analysis.skewness),
               ("kurtosis", Json.num analysis.kurtosis)] } }]
    else []

/-- `getRanks` (lines 530–540): rank = 1 + position in the
stable-by-value sort of the indexed values. -/
def getRanks (values : List ℝ) : List ℝ :=
  let sorted := values.enum.mergeSort fun a b => cdecide (a.2 ≤ b.2)
  values.enum.map fun p =>
    ((sorted.enum.find? fun q => q.2.1 == p.1).elim 0 fun q => (q.1 : ℝ)) + 1

/-- `spearmanCorrelation` (lines 520–528).  (The inner
`ss.sampleCorrelation` call is unguarded in the source and would throw
for fewer than two values; the model totalizes it to `0` — the claims
below never reach that case.) -/
def spearmanCorrelation (x y : List ℝ) : ℝ :=
  if x.length ≠ y.length ∨ x.length = 0 then 0
  else (ss.sampleCorrelationOpt (getRanks x) (getRanks y)).getD 0

/-- `polynomialRegression` (lines 575–605): exact for degree 1, the
documented approximation for higher degrees. -/
def polynomialRegression (x y : List ℝ) (degree : ℕ) : List ℝ :=
  if degree = 1 then
    let regression := ss.linearRegression (x.zip y)
    [regression.2, regression.1]
  else
    [ss.mean y,
     (ss.sampleCorrelationOpt x y).getD 0 *
       (ss.standardDeviation y / ss.standardDeviation x)] ++
      List.replicate (degree - 1) 0

/-- `evaluatePolynomial` (lines 607–613). -/
def evaluatePolynomial (x : ℝ) (coefficients : List ℝ) : ℝ :=
  (coefficients.enum.map fun p => p.2 * x ^ p.1).sum

/-- `calculateRSquared` (lines 615–621). -/
def calculateRSquared (actual predicted : List ℝ) : ℝ :=
  let actualMean := ss.mean actual
  let totalSumSquares := (actual.map fun val => (val - actualMean) ^ 2).sum
  let residualSumSquares := (actual.enum.map fun p =>
    (p.2 - predicted.getD p.1 0) ^ 2).sum
  if totalSumSquares = 0 then 0 else 1 - residualSumSquares / totalSumSquares

/-- `detectPolynomialRelationship` (lines 542–573), returning
`(degree, r_squared, coefficients)`. -/
def detectPolynomialRelationship (x y : List ℝ) : ℕ × ℝ × List ℝ :=
  ([1, 2, 3] : List ℕ).foldl
    (fun (best : ℕ × ℝ × List ℝ) degree =>
      let coefficients := polynomialRegression x y degree
      let predicted := x.map fun xi => evaluatePolynomial xi coefficients
      let rSquared := calculateRSquared y predicted
      if rSquared > best.2.1 then (degree, rSquared, coefficients) else best)
    (1, 0, [])

/-- `calculateCorrelationSignificance` (lines 1060–1064). -/
def calculateCorrelationSignificance (correlation : ℝ) (sampleSize : ℕ) : ℝ :=
  min 1 (|correlation| *
    Real.sqrt (((sampleSize : ℝ) - 2) / (1 - correlation * correlation)) / 3)

/-- `getCorrelationStrength` (lines 1066–1073). -/
def getCorrelationStrength (correlation : ℝ) : String :=
  if |correlation| ≥ 0.9 then "very_strong"
  else if |correlation| ≥ 0.7 then "strong"
  else if |correlation| ≥ 0.5 then "moderate"
  else if |correlation| ≥ 0.3 then "weak"
  else "very_weak"

/-- `detectNonLinearCorrelations` (lines 113–184): per column pair, a
Spearman-vs-Pearson test and a polynomial-fit test. -/
def detectNonLinearCorrelations (data : List DataPoint) (numericColumns : List String) :
    List AdvancedPattern :=
  if numericColumns.length < 2 then []
  else
    (List.range numericColumns.length).flatMap fun i =>
      ((List.range numericColumns.length).filter fun j => decide (i < j)).flatMap fun j =>
        let col1 := numericColumns.getD i ""
        let col2 := numericColumns.getD j ""
        let values1 := columnValues data col1
        let values2 := columnValues data col2
        let spearmanCorr := spearmanCorrelation values1 values2
        let pearsonCorr := (ss.sampleCorrelationOpt values1 values2).getD 0
        (if |spearmanCorr| > 0.7 ∧ |spearmanCorr - pearsonCorr| > 0.2 then
          [{ type := "correlation"
             confidence := |spearmanCorr|
             description := "Non-linear " ++
               (if spearmanCorr > 0 then "positive" else "negative") ++
               " correlation between " ++ col1 ++ " and " ++ col2
             parameters := [("spearman_correlation", Json.num spearmanCorr),
               ("pearson_correlation", Json.num pearsonCorr),
               ("relationship_type", Json.str "non_linear"),
               ("strength", Json.str (getCorrelationStrength |spearmanCorr|))]
             affectedColumns := [col1, col2]
             algorithm := "spearman_correlation"
             statistical_significance :=
               calculateCorrelationSignificance spearmanCorr data.length
             effect_size := |spearmanCorr|
             metadata :=
               { sample_size := data.length
                 test_statistic := some spearmanCorr
                 algorithm_params := some [("method", Json.str "spearman")] } }]
        else []) ++
        (let poly := detectPolynomialRelationship values1 values2
         if poly.2.1 > 0.8 ∧ poly.1 > 1 then
           [{ type := "correlation"
              confidence := poly.2.1
              description := "Polynomial relationship (degree " ++ toString poly.1 ++
                ") between " ++ col1 ++ " and " ++ col2
              parameters := [("degree", Json.num poly.1), ("r_squared", Json.num poly.2.1),
                ("coefficients", Json.arr (poly.2.2.map Json.num)),
                ("relationship_type", Json.str "polynomial")]
              affectedColumns := [col1, col2]
              algorithm := "polynomial_regression"
              statistical_significance := poly.2.1
              effect_size := poly.2.1
              metadata :=
                { sample_size := data.length
                  algorithm_params := some [("degree", Json.num poly.1)] } }]
         else [])

/-- `createMatrix` (lines 1094–1098), the advanced detector's own
copy. -/
def createMatrix (data : List DataPoint) (columns : List String) : List (List ℝ) :=
  data.map fun point => columns.map fun col => numAt point col

/-- `euclideanDistance` (lines 1009–1011), the advanced detector's own
copy. -/
def euclideanDistance (a b : List ℝ) : ℝ :=
  Real.sqrt ((a.enum.map fun p => (p.2 - b.getD p.1 0) ^ 2).sum)

/-- `cutDendrogram` (lines 629–636): the "dendrogram" is the stub
`{ levels: [2,3,4,5] }` (lines 623–627), so the assignment array has
length 4 — `dendrogram.levels.length` — regardless of the data size. -/
def cutDendrogram (numClusters : ℕ) : List ℕ :=
  (List.range 4).map fun i => i % numClusters

/-- `calculateSilhouetteScore` (lines 1100–1137), the advanced
2-argument version.  `assignments[i]` is `undefined` (here:
`Option.none`) for a record index beyond the assignment array. -/
def calculateSilhouetteScore (data : List (List ℝ)) (assignments : List ℕ) : ℝ :=
  let totalScore := (data.enum.map fun p =>
    let clusterA := assignments.get? p.1
    let sameCluster := assignments.enum.filterMap fun q =>
      if some q.2 = clusterA ∧ q.1 ≠ p.1 then some q.1 else none
    let a : ℝ :=
      if sameCluster.length > 0 then
        (sameCluster.map fun idx => euclideanDistance p.2 (data.getD idx [])).sum /
          sameCluster.length
      else 0
    let otherClusters := assignments.dedup.filter fun cluster =>
      cdecide (some cluster ≠ clusterA)
    let bs := otherClusters.filterMap fun cluster =>
      let otherPoints := assignments.enum.filterMap fun q =>
        if q.2 = cluster then some q.1 else none
      if otherPoints.length > 0 then
        some ((otherPoints.map fun idx =>
          euclideanDistance p.2 (data.getD idx [])).sum / otherPoints.length)
      else none
    match bs with
    | [] => 0
    | _ => let b := jsMin1 bs
           (b - a) / max a b).sum
  max 0 (totalScore / data.length)

/-- `detectHierarchicalClusters` (lines 186–237): first level in
{2,3,4,5} whose (stub) cut scores silhouette > 0.6.  (JS object keys of
the cluster-size record are integer-like, hence iterated in ascending
numeric order.) -/
def detectHierarchicalClusters (data : List DataPoint) (numericColumns : List String) :
    List AdvancedPattern :=
  if numericColumns.length < 2 ∨ data.length < 10 then []
  else
    let matrix := createMatrix data numericColumns
    match ([2, 3, 4, 5] : List ℕ).find? (fun level =>
      cdecide (calculateSilhouetteScore matrix (cutDendrogram level) > 0.6)) with
    | none => []
    | some level =>
        let clusters := cutDendrogram level
        let silhouette := calculateSilhouetteScore matrix clusters
        let clusterSizes := (clusters.dedup.mergeSort fun a b => decide (a ≤ b)).map
          fun c => (clusters.filter fun x => x == c).length
        [{ type := "cluster"
           confidence := silhouette
           description := "Hierarchical clustering reveals " ++ toString level ++
             " distinct groups with high cohesion"
           parameters := [("num_clusters", Json.num level),
             ("silhouette_score", Json.num silhouette),
             ("cluster_sizes", Json.arr (clusterSizes.map fun s => Json.num s)),
             ("method", Json.str "hierarchical"), ("linkage", Json.str "ward")]
           affectedColumns := numericColumns
           algorithm := "hierarchical_clustering"
           statistical_significance := silhouette
           effect_size := silhouette
           metadata :=
             { sample_size := data.length
               algorithm_params := some [("method", Json.str "ward"),
                 ("distance", Json.str "euclidean")] } }]

end DataViz.AdvancedPatternDetector

end

noncomputable section

open Classical

namespace DataViz.AdvancedPatternDetector

open DataViz

/-- `calculatePeakSignificance` (lines 676–688). -/
def calculatePeakSignificance (values : List ℝ) (position : ℕ) : ℝ :=
  let windowSize := min 10 (values.length / 10)
  let start := position - windowSize
  let window := (values.drop start).take (min values.length (position + windowSize) - start)
  let mean := ss.mean window
  let std := ss.standardDeviation window
  if std = 0 then 0
  else min 1 (|values.getD position 0 - mean| / (2 * std))

/-- The result of `analyzeFrequencyDomain` (lines 29–36):
peaks/valleys as `(position, magnitude, significance)` triples. -/
structure FrequencyPattern where
  peaks : List (ℕ × ℝ × ℝ)
  valleys : List (ℕ × ℝ × ℝ)
  dominant_frequency : ℝ
  harmonic_frequencies : List ℝ
  spectral_entropy : ℝ
  periodicity_strength : ℝ

/-- `calculateSpectralEntropy` (lines 690–714): 20-bin histogram
entropy, normalized by `log₂ 20`. -/
def calculateSpectralEntropy (values : List ℝ) : ℝ :=
  let mn := jsMin1 values
  let mx := jsMax1 values
  let binSize := (mx - mn) / 20
  if binSize = 0 then 0
  else
    (-((List.range 20).map fun b =>
        let count := (values.filter fun v =>
          cdecide (min ⌊(v - mn) / binSize⌋ 19 = b)).length
        if count > 0 then
          let p : ℝ := count / values.length
          p * Real.logb 2 p
        else 0).sum) / Real.logb 2 20

/-- `analyzeFrequencyDomain` (lines 638–674): local extrema scan with
window significance; dominant frequency from the spacing of the first
two 0.5-significant peaks (`sp[1]?.position || 0` when there is only
one). -/
def analyzeFrequencyDomain (values : List ℝ) : FrequencyPattern :=
  let peaks := (List.range values.length).filterMap fun i =>
    if 1 ≤ i ∧ i < values.length - 1 ∧
        values.getD i 0 > values.getD (i - 1) 0 ∧ values.getD i 0 > values.getD (i + 1) 0 then
      some (i, values.getD i 0, calculatePeakSignificance values i)
    else none
  let valleys := (List.range values.length).filterMap fun i =>
    if 1 ≤ i ∧ i < values.length - 1 ∧
        values.getD i 0 < values.getD (i - 1) 0 ∧ values.getD i 0 < values.getD (i + 1) 0 then
      some (i, values.getD i 0, calculatePeakSignificance values i)
    else none
  let significantPeaks := peaks.filter fun p => cdecide (p.2.2 > 0.5)
  let dominantFrequency : ℝ :=
    match significantPeaks with
    | [] => 0
    | p0 :: tail =>
        1 / ((p0.1 : ℝ) - (match tail with | [] => 0 | p1 :: _ => (p1.1 : ℝ)))
  { peaks := peaks
    valleys := valleys
    dominant_frequency := |dominantFrequency|
    harmonic_frequencies := ((significantPeaks.drop 1).take 3).map fun p => 1 / (p.1 : ℝ)
    spectral_entropy := calculateSpectralEntropy values
    periodicity_strength := min 1 ((significantPeaks.length : ℝ) / 10) }

/-- `detectFrequencyPatterns` (lines 239–304): per numeric column with
at least 50 values, a strong-periodicity pattern and a multi-peak
pattern.  The `toFixed(3)` formatting in the description is the
explicit `toFixed3` argument. -/
def detectFrequencyPatterns (toFixed3 : ℝ → String) (data : List DataPoint)
    (numericColumns : List String) : List AdvancedPattern :=
  numericColumns.flatMap fun column =>
    let values := columnValues data column
    if values.length < 50 then []
    else
      let freqAnalysis := analyzeFrequencyDomain values
      (if freqAnalysis.periodicity_strength > 0.6 then
        [{ type := "seasonal"
           confidence := freqAnalysis.periodicity_strength
           description := "Strong periodic pattern in " ++ column ++
             " with dominant frequency " ++ toFixed3 freqAnalysis.dominant_frequency
           parameters := [("dominant_frequency", Json.num freqAnalysis.dominant_frequency),
             ("harmonic_frequencies", Json.arr (freqAnalysis.harmonic_frequencies.map Json.num)),
             ("spectral_entropy", Json.num freqAnalysis.spectral_entropy),
             ("peak_count", Json.num freqAnalysis.peaks.length),
             ("periodicity_strength", Json.num freqAnalysis.periodicity_strength)]
           affectedColumns := [column]
           algorithm := "frequency_domain_analysis"
           statistical_significance := freqAnalysis.periodicity_strength
           effect_size := freqAnalysis.periodicity_strength
           metadata :=
             { sample_size := values.length
               algorithm_params := some [("method", Json.str "fft_approximation")] } }]
      else []) ++
      (if freqAnalysis.peaks.length > 2 then
        let significantPeaks := freqAnalysis.peaks.filter fun p => cdecide (p.2.2 > 0.7)
        if significantPeaks.length > 0 then
          [{ type := "cyclical"
             confidence := jsMin1 (significantPeaks.map fun p => p.2.2)
             description := "Multiple significant peaks detected in " ++ column ++
               " indicating complex cyclical behavior"
             parameters := [("peak_count", Json.num significantPeaks.length),
               ("peak_positions", Json.arr (significantPeaks.map fun p => Json.num p.1)),
               ("peak_magnitudes", Json.arr (significantPeaks.map fun p => Json.num p.2.1)),
               ("pattern_complexity", Json.num freqAnalysis.spectral_entropy)]
             affectedColumns := [column]
             algorithm := "peak_detection"
             statistical_significance := jsMin1 (significantPeaks.map fun p => p.2.2)
             effect_size := freqAnalysis.spectral_entropy
             metadata :=
               { sample_size := values.length
                 algorithm_params := some [("min_significance", Json.num 0.7)] } }]
        else []
      else [])

/-- `fitAutoregressive` (lines 716–761), returning
`(coefficients, r_squared, residual_variance, significance)`.
(The inner `ss.sampleCorrelation` is unguarded; totalized to `0`.) -/
def fitAutoregressive (values : List ℝ) (order : ℕ) :
    List ℝ × ℝ × ℝ × ℝ :=
  let n := values.length - order
  let y := values.drop order
  let X := (List.range n).map fun i =>
    (List.range order).map fun jm => values.getD (order + i - (jm + 1)) 0
  let coefficients := (List.range order).map fun i =>
    (ss.sampleCorrelationOpt (X.map fun row => row.getD i 0) y).getD 0 * 0.5
  let predicted := (List.range n).map fun i =>
    ((List.range order).map fun j => coefficients.getD j 0 * (X.getD i []).getD j 0).sum
  let r_squared := calculateRSquared y predicted
  let residuals := y.enum.map fun p => p.2 - predicted.getD p.1 0
  (coefficients, r_squared, ss.variance residuals, max 0.001 (1 - r_squared))

/-- `detectAutogressivePatterns` (lines 306–349): per numeric column
with at least 30 values, the first order in {1, 2, 3} whose fit has
R² > 0.6 and heuristic significance < 0.05. -/
def detectAutogressivePatterns (toFixed3 : ℝ → String) (data : List DataPoint)
    (numericColumns : List String) : List AdvancedPattern :=
  numericColumns.flatMap fun column =>
    let values := columnValues data column
    if values.length < 30 then []
    else
      match ([1, 2, 3] : List ℕ).find? (fun order =>
        let arModel := fitAutoregressive values order
        cdecide (arModel.2.1 > 0.6 ∧ arModel.2.2.2 < 0.05)) with
      | none => []
      | some order =>
          let arModel := fitAutoregressive values order
          [{ type := "trend"
             confidence := arModel.2.1
             description := column ++ " shows AR(" ++ toString order ++
               ") autoregressive behavior (R-squared = " ++ toFixed3 arModel.2.1 ++ ")"
             parameters := [("order", Json.num order),
               ("coefficients", Json.arr (arModel.1.map Json.num)),
               ("r_squared", Json.num arModel.2.1),
               ("residual_variance", Json.num arModel.2.2.1),
               ("model_type", Json.str "autoregressive")]
             affectedColumns := [column]
             algorithm := "ar_" ++ toString order
             statistical_significance := 1 - arModel.2.2.2
             effect_size := arModel.2.1
             metadata :=
               { sample_size := values.length - order
                 p_value := some arModel.2.2.2
                 algorithm_params := some [("order", Json.num order)] } }]

/-- The private `detectChangePoints(values)` CUSUM helper
(lines 763–807), returning `(position, magnitude, significance,
isIncrease)` records.  (In the transpiled JS this later same-named
method shadows the per-column `detectChangePoints(data, numericColumns)`
on the class prototype; the model keeps both under distinct names and
wires them as evidently intended.) -/
def detectChangePointsValues (values : List ℝ) : List (ℕ × ℝ × ℝ × Bool) :=
  let mean := ss.mean values
  let threshold := 3 * ss.standardDeviation values
  (values.foldl
    (fun (acc : ℝ × ℕ × List (ℕ × ℝ × ℝ × Bool)) v =>
      let cumsum := acc.1 + (v - mean)
      let i := acc.2.1
      let out :=
        if |cumsum| > threshold then
          let magnitude := |cumsum| / threshold
          let significance := min 1 (magnitude - 1)
          if significance > 0.5 then
            acc.2.2 ++ [(i, magnitude, significance, cdecide (cumsum > 0))]
          else acc.2.2
        else acc.2.2
      (cumsum, i + 1, out))
    (0, 0, [])).2.2

/-- The per-column `detectChangePoints` (lines 351–392). -/
def detectChangePointsPatterns (data : List DataPoint) (numericColumns : List String) :
    List AdvancedPattern :=
  numericColumns.flatMap fun column =>
    let values := columnValues data column
    if values.length < 20 then []
    else
      let changePoints := detectChangePointsValues values
      if changePoints.length > 0 then
        let significantChanges := changePoints.filter fun cp => cdecide (cp.2.2.1 > 0.8)
        if significantChanges.length > 0 then
          [{ type := "anomaly"
             confidence := jsMax1 (significantChanges.map fun cp => cp.2.2.1)
             description := toString significantChanges.length ++
               " significant change point(s) detected in " ++ column
             parameters := [("change_points", Json.arr (significantChanges.map fun cp => Json.num cp.1)),
               ("change_magnitudes", Json.arr (significantChanges.map fun cp => Json.num cp.2.1)),
               ("change_directions", Json.arr (significantChanges.map fun cp =>
                 Json.str (if cp.2.2.2 then "increase" else "decrease"))),
               ("detection_method", Json.str "cumulative_sum")]
             affectedColumns := [column]
             algorithm := "change_point_detection"
             statistical_significance := jsMax1 (significantChanges.map fun cp => cp.2.2.1)
             effect_size := jsMax1 (significantChanges.map fun cp => cp.2.1)
             metadata :=
               { sample_size := values.length
                 algorithm_params := some [("method", Json.str "cusum"),
                   ("threshold", Json.num 0.8)] } }]
        else []
      else []

/-- `autocorrelation` (lines 989–1007), the advanced detector's own
copy. -/
def autocorrelation (values : List ℝ) (lag : ℕ) : ℝ :=
  if lag ≥ values.length then 0
  else
    let mean := ss.mean values
    let numerator := ((values.zip (values.drop lag)).map fun p =>
      (p.1 - mean) * (p.2 - mean)).sum
    let denominator := (values.map fun v => (v - mean) * (v - mean)).sum
    if denominator = 0 then 0 else numerator / denominator

/-- `calculatePhase` (lines 834–847). -/
def calculatePhase (values : List ℝ) (period : ℕ) : ℝ :=
  if values.length / period < 2 then 0
  else
    let firstCycle := values.take period
    let secondCycle := (values.drop period).take period
    let firstPeak := firstCycle.findIdx fun v => cdecide (v = jsMax1 firstCycle)
    let secondPeak := secondCycle.findIdx fun v => cdecide (v = jsMax1 secondCycle)
    ((secondPeak : ℝ) - (firstPeak : ℝ)) / period

/-- `detectMultipleCycles` (lines 809–832): periods `5 .. ⌊n/4⌋` with
absolute autocorrelation > 0.3, sorted by descending strength. -/
def detectMultipleCycles (values : List ℝ) : List (ℕ × ℝ × ℝ) :=
  let maxPeriod := values.length / 4
  (((List.range (maxPeriod + 1)).filter fun p => decide (5 ≤ p)).filterMap fun period =>
    let strength := |autocorrelation values period|
    if strength > 0.3 then some (period, strength, calculatePhase values period)
    else none).mergeSort fun a b => cdecide (b.2.1 ≤ a.2.1)

/-- `calculateCycleInteraction` (lines 849–867). -/
def calculateCycleInteraction (cycles : List (ℕ × ℝ × ℝ)) : ℝ :=
  if cycles.length < 2 then 0
  else
    min 1 (((List.range cycles.length).flatMap fun i =>
      ((List.range cycles.length).filter fun j => decide (i < j)).map fun j =>
        let ci := cycles.getD i (0, 0, 0)
        let cj := cycles.getD j (0, 0, 0)
        let ratio := (ci.1 : ℝ) / (cj.1 : ℝ)
        if |ratio - round ratio| < 0.1 then ci.2.1 * cj.2.1 else 0).sum)

/-- `detectCyclicalPatterns` (lines 394–434): per numeric column with at
least 100 values, emitted when at least two cycles have strength
> 0.7. -/
def detectCyclicalPatterns (data : List DataPoint) (numericColumns : List String) :
    List AdvancedPattern :=
  numericColumns.flatMap fun column =>
    let values := columnValues data column
    if values.length < 100 then []
    else
      let cycles := detectMultipleCycles values
      let significantCycles := cycles.filter fun c => cdecide (c.2.1 > 0.7)
      if significantCycles.length > 1 then
        [{ type := "seasonal"
           confidence := jsMax1 (significantCycles.map fun c => c.2.1)
           description := "Multiple overlapping cycles detected in " ++ column ++ ": " ++
             String.intercalate ", " (significantCycles.map fun c => toString c.1) ++
             " period cycles"
           parameters := [("cycle_count", Json.num significantCycles.length),
             ("cycle_periods", Json.arr (significantCycles.map fun c => Json.num c.1)),
             ("cycle_strengths", Json.arr (significantCycles.map fun c => Json.num c.2.1)),
             ("dominant_cycle", Json.num ((significantCycles.headD (0, 0, 0)).1)),
             ("interaction_strength", Json.num (calculateCycleInteraction significantCycles))]
           affectedColumns := [column]
           algorithm := "multiple_cycle_detection"
           statistical_significance := jsMax1 (significantCycles.map fun c => c.2.1)
           effect_size := calculateCycleInteraction significantCycles
           metadata :=
             { sample_size := values.length
               algorithm_params := some [("min_period", Json.num 5),
                 ("max_period", Json.num (values.length / 4))] } }]
      else []

/-- `getNeighbors` (lines 958–968). -/
def getNeighbors (data : List (List ℝ)) (pointIdx : ℕ) (eps : ℝ) : List ℕ :=
  (List.range data.length).filter fun i =>
    cdecide (i ≠ pointIdx ∧ euclideanDistance (data.getD pointIdx []) (data.getD i []) ≤ eps)

/-- `estimateEps` (lines 907–919): the 10th-percentile pairwise distance
over the first `min(100, n)` points.  (An empty distance list — fewer
than two points — reads JS `undefined`; the model reads `0`, a case no
claim depends on.) -/
def estimateEps (data : List (List ℝ)) : ℝ :=
  let m := min 100 data.length
  let distances := (List.range m).flatMap fun i =>
    ((List.range m).filter fun j => decide (i < j)).map fun j =>
      euclideanDistance (data.getD i []) (data.getD j [])
  let sorted := jsSortAsc distances
  sorted.getD (⌊(sorted.length : ℝ) * 0.1⌋).toNat 0

/-- `simplifiedDbscan` (lines 921–956), returning the numbered clusters
in creation order and the noise points (the record's `'-1'` entry). -/
def simplifiedDbscan (data : List (List ℝ)) (eps : ℝ) (minSamples : ℕ) :
    List (List (List ℝ)) × List (List ℝ) :=
  let res := (List.range data.length).foldl
    (fun (acc : List ℕ × List (List (List ℝ)) × List (List ℝ)) i =>
      let visited := acc.1
      if visited.contains i then acc
      else
        let visited' := visited ++ [i]
        let neighbors := getNeighbors data i eps
        if neighbors.length < minSamples then
          (visited', acc.2.1, acc.2.2 ++ [data.getD i []])
        else
          let fresh := neighbors.filter fun nb => !(visited'.contains nb)
          (visited' ++ fresh,
           acc.2.1 ++ [data.getD i [] :: fresh.map fun nb => data.getD nb []],
           acc.2.2))
    ([], [], [])
  (res.2.1, res.2.2)

/-- `calculateCentroid` (lines 970–987). -/
def calculateCentroid (points : List (List ℝ)) : List ℝ :=
  match points with
  | [] => []
  | p0 :: _ =>
      (List.range p0.length).map fun i =>
        (points.map fun p => p.getD i 0).sum / points.length

/-- The result of `dbscanOutlierDetection` (lines 869–905). -/
structure DbscanResult where
  outlier_clusters : List (List ℝ × ℕ)
  total_outliers : ℕ
  confidence : ℝ
  eps : ℝ
  min_samples : ℕ

/-- `dbscanOutlierDetection` (lines 869–905): numbered clusters smaller
than 10% of the data count as outlier clusters; the noise entry sets
`total_outliers`. -/
def dbscanOutlierDetection (data : List (List ℝ)) : DbscanResult :=
  let eps := estimateEps data
  let minSamples := max 2 (⌊(data.length : ℝ) * 0.05⌋).toNat
  let clusters := simplifiedDbscan data eps minSamples
  let outlierClusters := clusters.1.filterMap fun points =>
    if (points.length : ℝ) < (data.length : ℝ) * 0.1 then
      some (calculateCentroid points, points.length)
    else none
  let totalOutliers := clusters.2.length
  { outlier_clusters := outlierClusters
    total_outliers := totalOutliers
    confidence :=
      if totalOutliers > 0 then min 1 ((totalOutliers : ℝ) / ((data.length : ℝ) * 0.1))
      else 0
    eps := eps
    min_samples := minSamples }

/-- `detectOutlierClusters` (lines 436–471). -/
def detectOutlierClusters (data : List DataPoint) (numericColumns : List String) :
    List AdvancedPattern :=
  if numericColumns.length < 2 then []
  else
    let matrix := createMatrix data numericColumns
    let outlierClusters := dbscanOutlierDetection matrix
    if outlierClusters.outlier_clusters.length > 0 then
      [{ type := "anomaly"
         confidence := outlierClusters.confidence
         description := toString outlierClusters.outlier_clusters.length ++
           " outlier clusters detected using DBSCAN"
         parameters := [("cluster_count", Json.num outlierClusters.outlier_clusters.length),
           ("outlier_count", Json.num outlierClusters.total_outliers),
           ("outlier_percentage",
             Json.num ((outlierClusters.total_outliers : ℝ) / data.length * 100)),
           ("cluster_sizes", Json.arr (outlierClusters.outlier_clusters.map
             fun c => Json.num c.2)),
           ("detection_method", Json.str "dbscan")]
         affectedColumns := numericColumns
         algorithm := "dbscan_outlier_detection"
         statistical_significance := outlierClusters.confidence
         effect_size := (outlierClusters.total_outliers : ℝ) / data.length
         metadata :=
           { sample_size := data.length
             algorithm_params := some [("eps", Json.num outlierClusters.eps),
               ("min_samples", Json.num outlierClusters.min_samples)] } }]
    else []

/-- `detectAdvancedPatterns` (lines 40–63): the enhanced baseline
patterns plus the eight advanced detectors, sorted by descending
confidence.  `randoms` feeds the inherited k-means initialization and
`toFixed3` the descriptions' number formatting. -/
def detectAdvancedPatterns (randoms : ℕ → ℕ) (toFixed3 : ℝ → String)
    (data : List DataPoint) : List AdvancedPattern :=
  if data.length = 0 then []
  else
    let numericColumns := getNumericColumns data
    let basePatterns := PatternDetector.detectPatterns randoms data
    ((basePatterns.map fun p => enhancePattern p data) ++
     detectDistributionPatterns data numericColumns ++
     detectNonLinearCorrelations data numericColumns ++
     detectHierarchicalClusters data numericColumns ++
     detectFrequencyPatterns toFixed3 data numericColumns ++
     detectAutogressivePatterns toFixed3 data numericColumns ++
     detectChangePointsPatterns data numericColumns ++
     detectCyclicalPatterns data numericColumns ++
     detectOutlierClusters data numericColumns).mergeSort
      fun a b => cdecide (b.confidence ≤ a.confidence)

end DataViz.AdvancedPatternDetector

end

noncomputable section

open Classical

namespace DataViz

/-- **C9.**  For every dataset that is empty or has no numeric fields,
`detectPatterns` and `detectAdvancedPatterns` return an empty pattern
list (and, the model being total functions, throw no exception),
whatever the random draws and number formatting supplied for the
k-means initialization and the description strings. -/
theorem detectors_empty_input (randoms : ℕ → ℕ) (toFixed3 : ℝ → String)
    (data : List DataPoint)
    (h : data = [] ∨ PatternDetector.getNumericColumns data = []) :
    PatternDetector.detectPatterns randoms data = [] ∧
    AdvancedPatternDetector.detectAdvancedPatterns randoms toFixed3 data = [] := by
  rcases h with rfl | hcols
  · exact ⟨rfl, rfl⟩
  · by_cases hlen : data.length = 0
    · have hnil : data = [] := List.length_eq_zero.1 hlen
      subst hnil
      exact ⟨rfl, rfl⟩
    · have hseas : PatternDetector.detectSeasonality data [] = [] := by
        unfold PatternDetector.detectSeasonality
        by_cases h50 : data.length < 50
        · rw [if_pos h50]
        · rw [if_neg h50]
          rfl
      have hbase : PatternDetector.detectPatterns randoms data = [] := by
        simp only [PatternDetector.detectPatterns]
        rw [if_neg hlen, hcols, hseas]
        exact List.mergeSort_nil
      have hadvcols : AdvancedPatternDetector.getNumericColumns data = [] := hcols
      have hadv : AdvancedPatternDetector.detectAdvancedPatterns randoms toFixed3 data = [] := by
        simp only [AdvancedPatternDetector.detectAdvancedPatterns]
        rw [if_neg hlen, hadvcols, hbase]
        exact List.mergeSort_nil
      exact ⟨hbase, hadv⟩

/-- One record with a single non-numeric field: a non-empty dataset with
no numeric columns. -/
def c9Data : List DataPoint :=
  [{ id := "r0", timestamp := 0, values := [("label", JSValue.str "hi")] }]

/-- Witness for C9: the empty dataset and the numeric-column-free
dataset `c9Data`, under concrete random draws and number formatting. -/
theorem detectors_empty_input_witness :
    (PatternDetector.detectPatterns (fun _ => 0) [] = [] ∧
     AdvancedPatternDetector.detectAdvancedPatterns (fun _ => 0) (fun _ => "") [] = []) ∧
    (PatternDetector.detectPatterns (fun _ => 0) c9Data = [] ∧
     AdvancedPatternDetector.detectAdvancedPatterns (fun _ => 0) (fun _ => "") c9Data = []) :=
  ⟨detectors_empty_input (fun _ => 0) (fun _ => "") [] (Or.inl rfl),
   detectors_empty_input (fun _ => 0) (fun _ => "") c9Data (Or.inr rfl)⟩

end DataViz

end
